import Mathlib

/-!
# HV_Programmer: a shallow embedding of `main.c`

The firmware is a single C file driving three AVR I/O ports.  Every function of
`main.c` is embedded as a Lean function on an explicit machine state holding
the I/O registers, the global `state` and a chronological trace of everything
observable: register stores, pin samples, busy-wait delays, and ghost markers
for function entry and return.  The markers never influence the registers.

Bytes are natural numbers; every store to an 8-bit location reduces modulo 256.
Loops take a fuel argument bounding the number of times one loop evaluates its
condition; a loop that runs out of fuel stops with `Outcome.timeout`, keeping
the state reached so far.
-/

namespace HVProgrammer

set_option maxRecDepth 20000

/-! ## Constants of `main.c` -/

/-- ATtiny26 signature byte 0 (`#define SIG1 0x1E`). -/
def SIG1 : Nat := 0x1E
/-- ATtiny26 signature byte 1 (`#define SIG2 0x91`). -/
def SIG2 : Nat := 0x91
/-- ATtiny26 signature byte 2 (`#define SIG3 0x0F`). -/
def SIG3 : Nat := 0x0F

/-- High fuse (`#define HFUSE 0x64`). -/
def HFUSE : Nat := 0x64
/-- Low fuse (`#define LFUSE 0xDF`). -/
def LFUSE : Nat := 0xDF
/-- Extended fuse (`#define EFUSE 0xFF`), unused. -/
def EFUSE : Nat := 0xFF

/-- Control pin `LED = PD0`. -/
def LED : Nat := 0
/-- Control pin `BUZ = PD1`. -/
def BUZ : Nat := 1
/-- Control pin `OE = PD2`. -/
def OE : Nat := 2
/-- Control pin `XTAL1 = PD3`. -/
def XTAL1 : Nat := 3
/-- Control pin `WR = PD4`. -/
def WR : Nat := 4
/-- Control pin `VCC = PD5`. -/
def VCC : Nat := 5
/-- Control pin `BS2 = PD6`. -/
def BS2 : Nat := 6
/-- Control pin `RESET12V = PD7`. -/
def RESET12V : Nat := 7

/-- Status pin `RDY = PC0`. -/
def RDY : Nat := 0
/-- Status pin `BS1 = PC1`. -/
def BS1 : Nat := 1
/-- Status pin `XA0 = PC2`. -/
def XA0 : Nat := 2
/-- Status pin `XA1 = PC3`. -/
def XA1 : Nat := 3
/-- Status pin `BUTTON = PC4`. -/
def BUTTON : Nat := 4
/-- Status pin `PAG = PC5`. -/
def PAG : Nat := 5

/-- Stabilisation delay in ms (`#define STABLE_DELAY 1250`). -/
def STABLE_DELAY : Nat := 1250
/-- Pulse delay in ms (`#define PULSE_DELAY 150`). -/
def PULSE_DELAY : Nat := 150
/-- Beep length in cycles (`#define BEEP_DURATION 500`); the source never uses it. -/
def BEEP_DURATION : Nat := 500

/-! ## Machine state and trace -/

/-- The writable I/O registers the program touches.  `DATA_PORT`/`DATA_DDR` are
`PORTB`/`DDRB`, `CTRL_PORT`/`CTRL_DDR` are `PORTD`/`DDRD`. -/
inductive Reg where
  | DDRB
  | PORTB
  | DDRC
  | PORTC
  | DDRD
  | PORTD
deriving DecidableEq, Repr

/-- The functions of `main.c`. -/
inductive Fn where
  | init_ports
  | enter_program_mode
  | send_command
  | generate_xtal_pulse
  | generate_write_pulse
  | read_byte
  | read_signature
  | repair_signature
  | program_fuses
  | chip_erase
  | exit_program_mode
  | user_feedback
deriving DecidableEq, Repr

/-- One observable step of the program. -/
inductive Event where
  | write (r : Reg) (v : Nat)
  | sample_pinb (v : Nat)
  | sample_pinc (v : Nat)
  | delay_ms (n : Nat)
  | delay_us (n : Nat)
  | call (f : Fn) (args : List Nat)
  | ret (f : Fn)
deriving DecidableEq, Repr

/-- The global `ProgrammerState state`; the array `sig[3]` is kept as its three
cells. -/
structure ProgrammerState where
  sig0 : Nat
  sig1 : Nat
  sig2 : Nat
  sig_valid : Nat
deriving DecidableEq, Repr

/-- The array `state.sig` as a list. -/
def ProgrammerState.sig (s : ProgrammerState) : List Nat := [s.sig0, s.sig1, s.sig2]

/-- Registers, global state, how many samples of `PINB` and `PINC` were taken,
and the trace so far (oldest event first). -/
structure Machine where
  DDRB : Nat
  PORTB : Nat
  DDRC : Nat
  PORTC : Nat
  DDRD : Nat
  PORTD : Nat
  state : ProgrammerState
  nb : Nat
  nc : Nat
  trace : List Event
deriving DecidableEq, Repr

/-- The outside world: what the pins of port B and port C show at the k-th time
the program samples them. -/
structure Env where
  pinb : Nat → Nat
  pinc : Nat → Nat

/-- The byte read from the 8-bit register `PINB` at its k-th sample. -/
def Env.PINB (env : Env) (k : Nat) : Nat := env.pinb k % 256

/-- The byte read from the 8-bit register `PINC` at its k-th sample. -/
def Env.PINC (env : Env) (k : Nat) : Nat := env.pinc k % 256

/-- What a run of a function that may loop produces: it returned (`done`), or a
loop exhausted its fuel (`timeout`); both carry the machine reached. -/
inductive Outcome where
  | done (m : Machine)
  | timeout (m : Machine)
deriving DecidableEq, Repr

/-- The machine an outcome carries. -/
def Outcome.machine : Outcome → Machine
  | .done m => m
  | .timeout m => m

/-- Whether the run returned. -/
def Outcome.returned : Outcome → Bool
  | .done _ => true
  | .timeout _ => false

/-- Sequencing: continue with `k` after a run that returned. -/
def Outcome.andThen (o : Outcome) (k : Machine → Outcome) : Outcome :=
  match o with
  | .done m => k m
  | .timeout m => .timeout m

/-! ## Primitive steps -/

/-- Append one event to the trace. -/
def emit (e : Event) (m : Machine) : Machine :=
  { m with trace := m.trace ++ [e] }

/-- Store to an 8-bit I/O register (`REG = v;`). -/
def out (r : Reg) (v : Nat) (m : Machine) : Machine :=
  match r with
  | .DDRB => { m with DDRB := v % 256, trace := m.trace ++ [.write .DDRB (v % 256)] }
  | .PORTB => { m with PORTB := v % 256, trace := m.trace ++ [.write .PORTB (v % 256)] }
  | .DDRC => { m with DDRC := v % 256, trace := m.trace ++ [.write .DDRC (v % 256)] }
  | .PORTC => { m with PORTC := v % 256, trace := m.trace ++ [.write .PORTC (v % 256)] }
  | .DDRD => { m with DDRD := v % 256, trace := m.trace ++ [.write .DDRD (v % 256)] }
  | .PORTD => { m with PORTD := v % 256, trace := m.trace ++ [.write .PORTD (v % 256)] }

/-- Sample `PINB`. -/
def in_PINB (env : Env) (m : Machine) : Nat × Machine :=
  (env.PINB m.nb,
    { m with nb := m.nb + 1, trace := m.trace ++ [.sample_pinb (env.PINB m.nb)] })

/-- Sample `PINC`. -/
def in_PINC (env : Env) (m : Machine) : Nat × Machine :=
  (env.PINC m.nc,
    { m with nc := m.nc + 1, trace := m.trace ++ [.sample_pinc (env.PINC m.nc)] })

/-- Busy wait `_delay_ms(n)` of `util/delay.h`. -/
def _delay_ms (n : Nat) (m : Machine) : Machine := emit (.delay_ms n) m

/-- Busy wait `_delay_us(n)` of `util/delay.h`. -/
def _delay_us (n : Nat) (m : Machine) : Machine := emit (.delay_us n) m

/-- The C expression `~x` for a non-negative `int` x, as the bit pattern of the
16-bit `int` of avr-gcc. -/
def compl (x : Nat) : Nat := 0xFFFF ^^^ (x % 0x10000)

/-- The loop `for (uint8_t i = i0; cond(i); i++) body(i)`: the counter is
incremented modulo 256; `fuel` bounds the evaluations of the condition. -/
def for_u8 (cond : Nat → Bool) (body : Nat → Machine → Outcome) :
    Nat → Nat → Machine → Outcome
  | 0, _, m => .timeout m
  | fuel + 1, i, m =>
    if cond i then
      match body i m with
      | .done m1 => for_u8 cond body fuel ((i + 1) % 256) m1
      | .timeout m1 => .timeout m1
    else .done m

/-! ## The functions of `main.c` -/

/-- Embeds `init_ports` (lines 62-74). -/
def init_ports (m : Machine) : Machine :=
  let m := emit (.call .init_ports []) m
  let m := out .DDRB 0xFF m
  let m := out .PORTB 0x00 m
  let m := out .DDRD 0xFF m
  let m := out .PORTD (1 <<< VCC) m
  let m := out .DDRC 0xEE m
  let m := out .PORTC 0x11 m
  emit (.ret .init_ports) m

/-- Embeds `enter_program_mode` (lines 76-89). -/
def enter_program_mode (m : Machine) : Machine :=
  let m := emit (.call .enter_program_mode []) m
  let m := out .PORTC 0x19 m
  let m := out .PORTD 0x23 m
  let m := _delay_ms STABLE_DELAY m
  let m := out .PORTD 0x14 m
  let m := _delay_ms PULSE_DELAY m
  let m := out .PORTD 0x94 m
  let m := _delay_ms PULSE_DELAY m
  emit (.ret .enter_program_mode) m

/-- Embeds `generate_xtal_pulse` (lines 98-103). -/
def generate_xtal_pulse (m : Machine) : Machine :=
  let m := emit (.call .generate_xtal_pulse []) m
  let m := out .PORTD (m.PORTD ||| (1 <<< XTAL1)) m
  let m := _delay_ms PULSE_DELAY m
  let m := out .PORTD (m.PORTD &&& compl (1 <<< XTAL1)) m
  let m := _delay_ms PULSE_DELAY m
  emit (.ret .generate_xtal_pulse) m

/-- Embeds `generate_write_pulse` (lines 105-110). -/
def generate_write_pulse (m : Machine) : Machine :=
  let m := emit (.call .generate_write_pulse []) m
  let m := out .PORTD (m.PORTD &&& compl (1 <<< WR)) m
  let m := _delay_ms PULSE_DELAY m
  let m := out .PORTD (m.PORTD ||| (1 <<< WR)) m
  let m := _delay_ms PULSE_DELAY m
  emit (.ret .generate_write_pulse) m

/-- Embeds `send_command` (lines 91-96); the argument is converted to
`uint8_t` on entry. -/
def send_command (cmd : Nat) (m : Machine) : Machine :=
  let cmd := cmd % 256
  let m := emit (.call .send_command [cmd]) m
  let m := out .PORTC 0x19 m
  let m := out .PORTD 0x96 m
  let m := out .PORTB cmd m
  let m := generate_xtal_pulse m
  emit (.ret .send_command) m

/-- Embeds `read_byte` (lines 112-121); returns the sampled byte. -/
def read_byte (env : Env) (m : Machine) : Nat × Machine :=
  let m := emit (.call .read_byte []) m
  let m := out .DDRB 0x00 m
  let m := out .PORTC 0x09 m
  let m := out .PORTD 0x94 m
  let m := _delay_ms PULSE_DELAY m
  let r := in_PINB env m
  let result := r.1
  let m := out .DDRB 0xFF r.2
  (result, emit (.ret .read_byte) m)

/-- Embeds `read_signature` (lines 123-138). -/
def read_signature (env : Env) (m : Machine) : Machine :=
  let m := emit (.call .read_signature []) m
  let m := send_command 0x08 m
  let r := read_byte env m
  let m := { r.2 with state := { r.2.state with sig0 := r.1 % 256 } }
  let m := send_command (0x08 + 0x01) m
  let r := read_byte env m
  let m := { r.2 with state := { r.2.state with sig1 := r.1 % 256 } }
  let m := send_command (0x08 + 0x02) m
  let r := read_byte env m
  let m := { r.2 with state := { r.2.state with sig2 := r.1 % 256 } }
  let v := (m.state.sig0 == SIG1 && m.state.sig1 == SIG2 && m.state.sig2 == SIG3).toNat
  let m := { m with state := { m.state with sig_valid := v % 256 } }
  emit (.ret .read_signature) m

/-- Embeds `repair_signature` (lines 140-158). -/
def repair_signature (fuel : Nat) (m : Machine) : Outcome :=
  let m := emit (.call .repair_signature []) m
  let m := send_command 0xAC m
  let m := send_command 0x5E m
  (for_u8 (fun i => decide (i < 3))
    (fun i m =>
      let m := send_command (0x08 + i) m
      let m := out .PORTB (if i = 0 then SIG1 else if i = 1 then SIG2 else SIG3) m
      let m := out .PORTC 0x15 m
      .done (generate_write_pulse m))
    fuel 0 m).andThen fun m =>
  let m := send_command 0xAC m
  let m := send_command 0x5F m
  let m := out .PORTC 0x15 m
  let m := generate_write_pulse m
  .done (emit (.ret .repair_signature) m)

/-- Embeds `program_fuses` (lines 160-172). -/
def program_fuses (m : Machine) : Machine :=
  let m := emit (.call .program_fuses []) m
  let m := send_command 0x40 m
  let m := out .PORTB HFUSE m
  let m := out .PORTC 0x17 m
  let m := generate_write_pulse m
  let m := send_command 0x40 m
  let m := out .PORTB LFUSE m
  let m := out .PORTC 0x15 m
  let m := generate_write_pulse m
  emit (.ret .program_fuses) m

/-- Embeds `chip_erase` (lines 174-178). -/
def chip_erase (m : Machine) : Machine :=
  let m := emit (.call .chip_erase []) m
  let m := send_command 0x80 m
  let m := out .PORTC 0x15 m
  let m := generate_write_pulse m
  emit (.ret .chip_erase) m

/-- Embeds `exit_program_mode` (lines 180-184). -/
def exit_program_mode (m : Machine) : Machine :=
  let m := emit (.call .exit_program_mode []) m
  let m := out .PORTC 0x11 m
  let m := out .PORTD 0x23 m
  let m := out .PORTB 0x00 m
  emit (.ret .exit_program_mode) m

/-- The body of the success loop of `user_feedback` (lines 189-192). -/
def led_blink (m : Machine) : Machine :=
  let m := out .PORTD (m.PORTD ||| (1 <<< LED)) m
  let m := _delay_ms 100 m
  let m := out .PORTD (m.PORTD &&& compl (1 <<< LED)) m
  _delay_ms 100 m

/-- The body of the inner failure loop of `user_feedback` (lines 197-200). -/
def buz_cycle (m : Machine) : Machine :=
  let m := out .PORTD (m.PORTD ||| (1 <<< BUZ)) m
  let m := _delay_us 50 m
  let m := out .PORTD (m.PORTD &&& compl (1 <<< BUZ)) m
  _delay_us 50 m

/-- Embeds `user_feedback` (lines 186-204); the argument is converted to
`uint8_t` on entry.  In the failure branch the inner counter is a new
`uint8_t i` shadowing the outer one, compared against the `int` 500. -/
def user_feedback (fuel : Nat) (success : Nat) (m : Machine) : Outcome :=
  let success := success % 256
  let m := emit (.call .user_feedback [success]) m
  (if success ≠ 0 then
    for_u8 (fun i => decide (i < 3)) (fun _ m => .done (led_blink m)) fuel 0 m
  else
    for_u8 (fun i => decide (i < 3))
      (fun _ m => for_u8 (fun i => decide (i < 500)) (fun _ m => .done (buz_cycle m)) fuel 0 m)
      fuel 0 m).andThen fun m =>
  .done (emit (.ret .user_feedback) m)

/-- The statements of `main` run when the button is found pressed
(lines 211-227): one session. -/
def main_session (env : Env) (fuel : Nat) (m : Machine) : Outcome :=
  let m := enter_program_mode m
  let m := read_signature env m
  (if m.state.sig_valid = 0 then
    (repair_signature fuel m).andThen fun m => .done (read_signature env m)
  else .done m).andThen fun m =>
  (if m.state.sig_valid ≠ 0 then
    let m := program_fuses m
    let m := chip_erase m
    user_feedback fuel 1 m
  else
    user_feedback fuel 0 m).andThen fun m =>
  .done (exit_program_mode m)

/-- One iteration of the `while(1)` loop of `main` (lines 210-229). -/
def main_loop_body (env : Env) (fuel : Nat) (m : Machine) : Outcome :=
  let r := in_PINC env m
  (if r.1 &&& (1 <<< BUTTON) = 0 then main_session env fuel r.2
  else .done r.2).andThen fun m =>
  .done (_delay_ms STABLE_DELAY m)

/-- The loop `while(1)` of `main`, cut after `n` iterations. -/
def main_loop (env : Env) (fuel : Nat) : Nat → Machine → Outcome
  | 0, m => .timeout m
  | n + 1, m => (main_loop_body env fuel m).andThen (main_loop env fuel n)

/-- Embeds `main` (lines 206-231). -/
def main (env : Env) (fuel : Nat) (n : Nat) (m : Machine) : Outcome :=
  main_loop env fuel n (init_ports m)

/-! ## Observations on traces -/

/-- How many times function `f` is entered in a trace. -/
def countCall (f : Fn) (tr : List Event) : Nat :=
  tr.countP fun e =>
    match e with
    | .call g _ => decide (g = f)
    | _ => false

/-- How many times `send_command(c)` is entered in a trace. -/
def countCmd (c : Nat) (tr : List Event) : Nat :=
  tr.count (.call .send_command [c])

/-- The entries into the functions listed in `fs`, in order, with arguments. -/
def callsAmong (fs : List Fn) (tr : List Event) : List (Fn × List Nat) :=
  tr.filterMap fun e =>
    match e with
    | .call f a => if f ∈ fs then some (f, a) else none
    | _ => none

/-- The bytes sampled from `PINB`, in order. -/
def samples (tr : List Event) : List Nat :=
  tr.filterMap fun e =>
    match e with
    | .sample_pinb v => some v
    | _ => none

/-- The values stored to `CTRL_PORT`, in order. -/
def ctrlWrites (tr : List Event) : List Nat :=
  tr.filterMap fun e =>
    match e with
    | .write .PORTD v => some v
    | _ => none

/-- The byte held by `DATA_PORT` at each entry into `generate_write_pulse`,
where `d` is the content of `DATA_PORT` before the trace. -/
def dataAtWritePulses (d : Nat) : List Event → List Nat
  | [] => []
  | .write .PORTB v :: tr => dataAtWritePulses v tr
  | .call .generate_write_pulse _ :: tr => d :: dataAtWritePulses d tr
  | _ :: tr => dataAtWritePulses d tr

/-! ## Expected event sequences -/

/-- A clock pulse issued with `CTRL_PORT = 0x96`. -/
def tr_xtal_pulse : List Event :=
  [.call .generate_xtal_pulse [], .write .PORTD 0x9E, .delay_ms 150,
   .write .PORTD 0x96, .delay_ms 150, .ret .generate_xtal_pulse]

/-- A write pulse issued with `CTRL_PORT = 0x96`. -/
def tr_write_pulse : List Event :=
  [.call .generate_write_pulse [], .write .PORTD 0x86, .delay_ms 150,
   .write .PORTD 0x96, .delay_ms 150, .ret .generate_write_pulse]

/-- One `send_command(cmd)`. -/
def tr_send_command (cmd : Nat) : List Event :=
  [.call .send_command [cmd], .write .PORTC 0x19, .write .PORTD 0x96, .write .PORTB cmd]
    ++ tr_xtal_pulse ++ [.ret .send_command]

/-- One `read_byte()` sampling `v`. -/
def tr_read_byte (v : Nat) : List Event :=
  [.call .read_byte [], .write .DDRB 0x00, .write .PORTC 0x09, .write .PORTD 0x94,
   .delay_ms 150, .sample_pinb v, .write .DDRB 0xFF, .ret .read_byte]

/-- One `read_signature()` sampling `b0`, `b1`, `b2`. -/
def tr_read_signature (b0 b1 b2 : Nat) : List Event :=
  [.call .read_signature []]
    ++ tr_send_command 0x08 ++ tr_read_byte b0
    ++ tr_send_command 0x09 ++ tr_read_byte b1
    ++ tr_send_command 0x0A ++ tr_read_byte b2
    ++ [.ret .read_signature]

/-- Writing byte `v` at signature index `i` inside `repair_signature`. -/
def tr_repair_step (i v : Nat) : List Event :=
  tr_send_command (0x08 + i) ++ [.write .PORTB v, .write .PORTC 0x15] ++ tr_write_pulse

/-- One `repair_signature()`. -/
def tr_repair_signature : List Event :=
  [.call .repair_signature []]
    ++ tr_send_command 0xAC ++ tr_send_command 0x5E
    ++ tr_repair_step 0 0x1E ++ tr_repair_step 1 0x91 ++ tr_repair_step 2 0x0F
    ++ tr_send_command 0xAC ++ tr_send_command 0x5F
    ++ [.write .PORTC 0x15] ++ tr_write_pulse
    ++ [.ret .repair_signature]

/-- One `program_fuses()`. -/
def tr_program_fuses : List Event :=
  [.call .program_fuses []]
    ++ tr_send_command 0x40 ++ [.write .PORTB 0x64, .write .PORTC 0x17] ++ tr_write_pulse
    ++ tr_send_command 0x40 ++ [.write .PORTB 0xDF, .write .PORTC 0x15] ++ tr_write_pulse
    ++ [.ret .program_fuses]

/-- One `chip_erase()`. -/
def tr_chip_erase : List Event :=
  [.call .chip_erase []]
    ++ tr_send_command 0x80 ++ [.write .PORTC 0x15] ++ tr_write_pulse
    ++ [.ret .chip_erase]

/-- One `enter_program_mode()`. -/
def tr_enter_program_mode : List Event :=
  [.call .enter_program_mode [], .write .PORTC 0x19, .write .PORTD 0x23, .delay_ms 1250,
   .write .PORTD 0x14, .delay_ms 150, .write .PORTD 0x94, .delay_ms 150,
   .ret .enter_program_mode]

/-- One `exit_program_mode()`. -/
def tr_exit_program_mode : List Event :=
  [.call .exit_program_mode [], .write .PORTC 0x11, .write .PORTD 0x23, .write .PORTB 0x00,
   .ret .exit_program_mode]

/-- One LED phase pair on a control port holding `c`: LED set, 100 ms, LED
cleared, 100 ms. -/
def tr_led_blink (c : Nat) : List Event :=
  [.write .PORTD (c ||| 1), .delay_ms 100, .write .PORTD (c &&& 0xFE), .delay_ms 100]

/-- The success pattern `user_feedback(a)` on a control port holding `c`. -/
def tr_success (a c : Nat) : List Event :=
  [.call .user_feedback [a]] ++ tr_led_blink c ++ tr_led_blink c ++ tr_led_blink c
    ++ [.ret .user_feedback]

/-- One buzzer phase pair on a control port holding `c`: BUZ set, 50 µs, BUZ
cleared, 50 µs. -/
def tr_buz_cycle (c : Nat) : List Event :=
  [.write .PORTD (c ||| 2), .delay_us 50, .write .PORTD (c &&& 0xFD), .delay_us 50]

/-- The buzzer phase pair repeated n times. -/
def tr_buz_cycles (c : Nat) : Nat → List Event
  | 0 => []
  | n + 1 => tr_buz_cycle c ++ tr_buz_cycles c n

/-! ## Concrete inputs -/

/-- A machine just after reset: every register zero, nothing sampled, empty
trace. -/
def power_on : Machine :=
  { DDRB := 0, PORTB := 0, DDRC := 0, PORTC := 0, DDRD := 0, PORTD := 0,
    state := { sig0 := 0, sig1 := 0, sig2 := 0, sig_valid := 0 },
    nb := 0, nc := 0, trace := [] }

/-- A target answering 0x1E, 0x91, 0x0F to every signature read; button held. -/
def env_valid : Env :=
  { pinb := fun k => if k % 3 = 0 then 0x1E else if k % 3 = 1 then 0x91 else 0x0F,
    pinc := fun _ => 0 }

/-- A target answering 0xFF to the first three samples and the expected
signature afterwards; button held. -/
def env_repaired : Env :=
  { pinb := fun k =>
      if k < 3 then 0xFF else if k % 3 = 0 then 0x1E else if k % 3 = 1 then 0x91 else 0x0F,
    pinc := fun _ => 0 }

/-- A target (or an empty socket) answering 0xFF to every sample; button held. -/
def env_blank : Env :=
  { pinb := fun _ => 0xFF, pinc := fun _ => 0 }

/-- The events a run appended: the trace of `m1` without the part already in
`m0`. -/
def new_events (m0 m1 : Machine) : List Event := m1.trace.drop m0.trace.length

/-- A session in which the first signature read is valid (scenario A). -/
def tr_session_valid : List Event :=
  tr_enter_program_mode ++ tr_read_signature 0x1E 0x91 0x0F
    ++ tr_program_fuses ++ tr_chip_erase ++ tr_success 1 0x96 ++ tr_exit_program_mode

/-- A session in which the first read samples `b0 b1 b2` and the read after the
repair is valid (scenario B). -/
def tr_session_repaired (b0 b1 b2 : Nat) : List Event :=
  tr_enter_program_mode ++ tr_read_signature b0 b1 b2 ++ tr_repair_signature
    ++ tr_read_signature 0x1E 0x91 0x0F
    ++ tr_program_fuses ++ tr_chip_erase ++ tr_success 1 0x96 ++ tr_exit_program_mode

/-- A session in which both reads are invalid (scenario C), up to the n-th
buzzer phase pair. -/
def tr_session_failed (b0 b1 b2 b3 b4 b5 n : Nat) : List Event :=
  tr_enter_program_mode ++ tr_read_signature b0 b1 b2 ++ tr_repair_signature
    ++ tr_read_signature b3 b4 b5
    ++ [.call .user_feedback [0]] ++ tr_buz_cycles 0x94 n

/-- The `_delay_ms` arguments in a trace, in order. -/
def delaysMs (tr : List Event) : List Nat :=
  tr.filterMap fun e =>
    match e with
    | .delay_ms n => some n
    | _ => none

/-- The `_delay_us` arguments in a trace, in order. -/
def delaysUs (tr : List Event) : List Nat :=
  tr.filterMap fun e =>
    match e with
    | .delay_us n => some n
    | _ => none

/-- The level of bit `b` of `CTRL_PORT` after each store to it, in order. -/
def bitLevels (b : Nat) (tr : List Event) : List Bool :=
  (ctrlWrites tr).map fun v => v.testBit b

/-- How many times consecutive entries of a list of levels differ. -/
def levelChanges : List Bool → Nat
  | x :: y :: rest => (if x = y then 0 else 1) + levelChanges (y :: rest)
  | _ => 0

/-- State of the monitor of the fuse/erase guard: the bytes sampled by the most
recent completed `read_signature`, the bytes sampled so far by a
`read_signature` in progress, the command sent last, and whether no violation
was seen. -/
structure Guard where
  last : Option (List Nat)
  cur : Option (List Nat)
  cmd : Option Nat
  ok : Bool
deriving DecidableEq, Repr

/-- Whether the most recent completed `read_signature` sampled exactly
0x1E, 0x91, 0x0F and none is in progress. -/
def Guard.identified (g : Guard) : Bool :=
  decide (g.last = some [0x1E, 0x91, 0x0F]) && decide (g.cur = none)

/-- One step of the monitor: `program_fuses`, `chip_erase`, `send_command(0x40)`,
`send_command(0x80)` and a write pulse following one of these two commands are
violations unless the target is identified. -/
def Guard.step (g : Guard) : Event → Guard
  | .call .read_signature _ => { g with cur := some [] }
  | .sample_pinb v => { g with cur := g.cur.map fun l => l ++ [v] }
  | .ret .read_signature => { g with last := g.cur, cur := none }
  | .call .send_command [c] =>
    if c = 0x40 ∨ c = 0x80 then { g with cmd := some c, ok := g.ok && g.identified }
    else { g with cmd := some c }
  | .call .generate_write_pulse _ =>
    if g.cmd = some 0x40 ∨ g.cmd = some 0x80 then { g with ok := g.ok && g.identified }
    else g
  | .call .program_fuses _ => { g with ok := g.ok && g.identified }
  | .call .chip_erase _ => { g with ok := g.ok && g.identified }
  | _ => g

/-- The monitor at the start of a session. -/
def Guard.init : Guard := { last := none, cur := none, cmd := none, ok := true }

/-- Run the monitor over a trace. -/
def Guard.run (g : Guard) (tr : List Event) : Guard := tr.foldl Guard.step g

/-- The fuse/erase guard holds along a trace. -/
def guard_ok (tr : List Event) : Bool := (Guard.init.run tr).ok

/-- Every function entry in a trace, in order, with arguments. -/
def calls (tr : List Event) : List (Fn × List Nat) :=
  tr.filterMap fun e =>
    match e with
    | .call f a => some (f, a)
    | _ => none

/-- The events of a `repair_signature()` cut short after n of its three write
steps (what a run with fuel n < 4 reaches). -/
def tr_repair_partial : Nat → List Event
  | 0 => [.call .repair_signature []] ++ tr_send_command 0xAC ++ tr_send_command 0x5E
  | 1 => [.call .repair_signature []] ++ tr_send_command 0xAC ++ tr_send_command 0x5E
      ++ tr_repair_step 0 0x1E
  | 2 => [.call .repair_signature []] ++ tr_send_command 0xAC ++ tr_send_command 0x5E
      ++ tr_repair_step 0 0x1E ++ tr_repair_step 1 0x91
  | _ => [.call .repair_signature []] ++ tr_send_command 0xAC ++ tr_send_command 0x5E
      ++ tr_repair_step 0 0x1E ++ tr_repair_step 1 0x91 ++ tr_repair_step 2 0x0F

/-- The LED phase pair repeated n times. -/
def tr_led_blinks (c : Nat) : Nat → List Event
  | 0 => []
  | n + 1 => tr_led_blink c ++ tr_led_blinks c n

/-- A session with a valid first read, cut short inside the success pattern
after n LED phase pairs (fuel n < 4). -/
def tr_session_cut_valid (n : Nat) : List Event :=
  tr_enter_program_mode ++ tr_read_signature 0x1E 0x91 0x0F
    ++ tr_program_fuses ++ tr_chip_erase ++ [.call .user_feedback [1]] ++ tr_led_blinks 0x96 n

/-- A session with an invalid first read, cut short inside `repair_signature`
after n write steps (fuel n < 4). -/
def tr_session_cut_repair (b0 b1 b2 n : Nat) : List Event :=
  tr_enter_program_mode ++ tr_read_signature b0 b1 b2 ++ tr_repair_partial n

/-- The event sequences of a session that returned: scenario A or scenario B. -/
def SessionDone (evs : List Event) : Prop :=
  evs = tr_session_valid ∨ ∃ b0 b1 b2, evs = tr_session_repaired b0 b1 b2

/-- The event sequences of a session that did not return: cut short by a small
fuel inside the success pattern or inside `repair_signature`, or inside the
failure pattern. -/
def SessionCut (evs : List Event) : Prop :=
  (∃ n, n < 4 ∧ evs = tr_session_cut_valid n)
  ∨ (∃ b0 b1 b2 n, n < 4 ∧ evs = tr_session_cut_repair b0 b1 b2 n)
  ∨ (∃ b0 b1 b2 b3 b4 b5 n, evs = tr_session_failed b0 b1 b2 b3 b4 b5 n)

/-- State of the monitor of the control port around pulses: the value last
stored to `CTRL_PORT` (initially the value it held before the trace) and
whether every pulse so far was entered and left with `CTRL_PORT = 0x96`. -/
structure PulseCheck where
  ctrl : Nat
  ok : Bool
deriving DecidableEq, Repr

/-- One step of the pulse monitor. -/
def PulseCheck.step (s : PulseCheck) : Event → PulseCheck
  | .write .PORTD v => { s with ctrl := v }
  | .call .generate_xtal_pulse _ => { s with ok := s.ok && decide (s.ctrl = 0x96) }
  | .ret .generate_xtal_pulse => { s with ok := s.ok && decide (s.ctrl = 0x96) }
  | .call .generate_write_pulse _ => { s with ok := s.ok && decide (s.ctrl = 0x96) }
  | .ret .generate_write_pulse => { s with ok := s.ok && decide (s.ctrl = 0x96) }
  | _ => s

/-- Run the pulse monitor over a trace. -/
def PulseCheck.run (s : PulseCheck) (tr : List Event) : PulseCheck := tr.foldl PulseCheck.step s

/-- Every pulse in the trace starts and ends with `CTRL_PORT = 0x96`, where `c0`
is the content of `CTRL_PORT` before the trace. -/
def pulses_ok (c0 : Nat) (tr : List Event) : Bool :=
  (PulseCheck.run { ctrl := c0, ok := true } tr).ok

/-- State of the monitor of the data bus direction: the value of `DDRB` (by its
stores, initially the value before the trace), whether `read_byte` is running,
and whether no violation was seen. -/
structure BusCheck where
  ddrb : Nat
  reading : Bool
  ok : Bool
deriving DecidableEq, Repr

/-- One step of the bus monitor.  A store to `DDRB` of a value other than 0xFF
is allowed only inside `read_byte`, and `read_byte` must return with
`DDRB = 0xFF`.  A store to `DATA_PORT`, a `send_command`, a clock pulse and a
write pulse need `DDRB = 0xFF` and must not happen inside `read_byte`. -/
def BusCheck.step (s : BusCheck) : Event → BusCheck
  | .write .DDRB v => { s with ddrb := v, ok := s.ok && (decide (v = 0xFF) || s.reading) }
  | .write .PORTB _ => { s with ok := s.ok && decide (s.ddrb = 0xFF) && !s.reading }
  | .call .send_command _ => { s with ok := s.ok && decide (s.ddrb = 0xFF) && !s.reading }
  | .call .generate_xtal_pulse _ =>
    { s with ok := s.ok && decide (s.ddrb = 0xFF) && !s.reading }
  | .ret .generate_xtal_pulse => { s with ok := s.ok && decide (s.ddrb = 0xFF) && !s.reading }
  | .call .generate_write_pulse _ =>
    { s with ok := s.ok && decide (s.ddrb = 0xFF) && !s.reading }
  | .ret .generate_write_pulse => { s with ok := s.ok && decide (s.ddrb = 0xFF) && !s.reading }
  | .call .read_byte _ => { s with reading := true }
  | .ret .read_byte => { s with reading := false, ok := s.ok && decide (s.ddrb = 0xFF) }
  | _ => s

/-- Run the bus monitor over a trace. -/
def BusCheck.run (s : BusCheck) (tr : List Event) : BusCheck := tr.foldl BusCheck.step s

/-- The bus monitor with the data bus in output mode and no violation. -/
def BusCheck.driven : BusCheck := { ddrb := 0xFF, reading := false, ok := true }

/-- The data bus is driven whenever it is used to transmit along a trace that
starts with `DDRB = 0xFF`. -/
def bus_ok (tr : List Event) : Bool := (BusCheck.driven.run tr).ok

/-- Modelled from the spec: the simulated target of the repair-then-read round
trip (spec section 8), which is a test double and not part of `main.c`.  It
holds three signature bytes, the index selected by the last `send_command(0x08 + i)`
if any, and the byte the programmer last stored to `DATA_PORT`; `agreed` records
whether every byte sampled so far was the byte the target showed. -/
structure Target where
  byte0 : Nat
  byte1 : Nat
  byte2 : Nat
  sel : Option Nat
  bus : Nat
  agreed : Bool
deriving DecidableEq, Repr

/-- Modelled from the spec: the byte the target shows on the data bus, if a
signature byte is selected. -/
def Target.shown (t : Target) : Option Nat :=
  match t.sel with
  | some 0 => some t.byte0
  | some 1 => some t.byte1
  | some 2 => some t.byte2
  | _ => none

/-- Modelled from the spec: a write pulse stores the byte on `DATA_PORT` into
the selected signature byte. -/
def Target.store (t : Target) : Target :=
  match t.sel with
  | some 0 => { t with byte0 := t.bus }
  | some 1 => { t with byte1 := t.bus }
  | some 2 => { t with byte2 := t.bus }
  | _ => t

/-- Modelled from the spec: how the simulated target follows the programmer.
`send_command(0x08 + i)` selects byte i; a write pulse stores; a sample agrees
if it is the selected byte.  With `keep = true` any other command leaves the
selection as it is (the three rules and nothing more); with `keep = false` any
other command ends the selection. -/
def Target.step (keep : Bool) (t : Target) : Event → Target
  | .write .PORTB v => { t with bus := v }
  | .call .send_command [c] =>
    if c = 0x08 then { t with sel := some 0 }
    else if c = 0x09 then { t with sel := some 1 }
    else if c = 0x0A then { t with sel := some 2 }
    else if keep then t
    else { t with sel := none }
  | .call .generate_write_pulse _ => t.store
  | .sample_pinb v =>
    match t.shown with
    | some b => { t with agreed := t.agreed && v == b }
    | none => t
  | _ => t

/-- Modelled from the spec: the target after a trace. -/
def Target.run (keep : Bool) (t : Target) (tr : List Event) : Target :=
  tr.foldl (Target.step keep) t

/-- Modelled from the spec: a target holding the bytes `a0 a1 a2`, nothing
selected yet. -/
def Target.holding (a0 a1 a2 : Nat) : Target :=
  { byte0 := a0, byte1 := a1, byte2 := a2, sel := none, bus := 0, agreed := true }

/-- A target answering 0x1E, 0x91, 0x5F to every signature read; button held. -/
def env_clobbered : Env :=
  { pinb := fun k => if k % 3 = 0 then 0x1E else if k % 3 = 1 then 0x91 else 0x5F,
    pinc := fun _ => 0 }

/-! ## Effects of the straight-line functions -/

theorem PINB_lt (env : Env) (k : Nat) : env.PINB k < 256 :=
  Nat.mod_lt _ (by decide)

@[simp] theorem PINB_mod (env : Env) (k : Nat) : env.PINB k % 256 = env.PINB k :=
  Nat.mod_eq_of_lt (PINB_lt env k)

theorem send_command_eq (cmd : Nat) (m : Machine) :
    send_command cmd m =
      { m with PORTC := 0x19, PORTD := 0x96, PORTB := cmd % 256,
               trace := m.trace ++ tr_send_command (cmd % 256) } := by
  simp +decide [send_command, generate_xtal_pulse, out, emit, _delay_ms, PULSE_DELAY, XTAL1,
    compl, tr_send_command, tr_xtal_pulse]

theorem write_pulse_eq (m : Machine) (h : m.PORTD = 0x96) :
    generate_write_pulse m = { m with trace := m.trace ++ tr_write_pulse } := by
  cases m
  simp only at h
  subst h
  simp +decide [generate_write_pulse, out, emit, _delay_ms, PULSE_DELAY, WR, compl,
    tr_write_pulse]

theorem read_byte_eq (env : Env) (m : Machine) :
    read_byte env m =
      (env.PINB m.nb,
        { m with DDRB := 0xFF, PORTC := 0x09, PORTD := 0x94, nb := m.nb + 1,
                 trace := m.trace ++ tr_read_byte (env.PINB m.nb) }) := by
  simp [read_byte, in_PINB, out, emit, _delay_ms, PULSE_DELAY, tr_read_byte]

theorem send_read (env : Env) (c : Nat) (m : Machine) :
    read_byte env (send_command c m) =
      (env.PINB m.nb,
        { m with DDRB := 0xFF, PORTB := c % 256, PORTC := 0x09, PORTD := 0x94, nb := m.nb + 1,
                 trace :=
                   m.trace ++ (tr_send_command (c % 256) ++ tr_read_byte (env.PINB m.nb)) }) := by
  rw [send_command_eq, read_byte_eq]
  simp only [List.append_assoc]

theorem read_signature_eq (env : Env) (m : Machine) :
    read_signature env m =
      { m with
        DDRB := 0xFF, PORTB := 0x0A, PORTC := 0x09, PORTD := 0x94,
        state :=
          { sig0 := env.PINB m.nb, sig1 := env.PINB (m.nb + 1), sig2 := env.PINB (m.nb + 2),
            sig_valid :=
              (env.PINB m.nb == SIG1 && env.PINB (m.nb + 1) == SIG2
                && env.PINB (m.nb + 2) == SIG3).toNat },
        nb := m.nb + 3,
        trace :=
          m.trace ++ tr_read_signature (env.PINB m.nb) (env.PINB (m.nb + 1))
            (env.PINB (m.nb + 2)) } := by
  have hb : ∀ b : Bool, b.toNat % 256 = b.toNat := by decide
  unfold read_signature
  simp only [send_read]
  simp only [emit, tr_read_signature, hb, PINB_mod, List.append_assoc, Nat.reduceAdd,
    Nat.reduceMod]

/-! ## Loops and the remaining functions -/

@[simp] theorem andThen_done (m : Machine) (k : Machine → Outcome) :
    (Outcome.done m).andThen k = k m := rfl

@[simp] theorem andThen_timeout (m : Machine) (k : Machine → Outcome) :
    (Outcome.timeout m).andThen k = .timeout m := rfl

theorem for_u8_zero (cond : Nat → Bool) (body : Nat → Machine → Outcome) (i : Nat)
    (m : Machine) : for_u8 cond body 0 i m = .timeout m := by
  rw [for_u8]

theorem for_u8_succ (cond : Nat → Bool) (body : Nat → Machine → Outcome) (fuel i : Nat)
    (m : Machine) :
    for_u8 cond body (fuel + 1) i m =
      if cond i then (body i m).andThen (fun m1 => for_u8 cond body fuel ((i + 1) % 256) m1)
      else .done m := by
  rw [for_u8]
  split
  · cases body i m <;> rfl
  · rfl

/-- A loop `for (uint8_t i = 0; i < 3; i++)` with enough fuel runs its body for
0, 1 and 2. -/
theorem for_u8_three (body : Nat → Machine → Outcome) (k : Nat) (m : Machine) :
    for_u8 (fun i => decide (i < 3)) body (k + 4) 0 m =
      ((body 0 m).andThen (body 1)).andThen (body 2) := by
  rw [for_u8_succ]
  cases body 0 m with
  | timeout m1 => simp
  | done m1 =>
    simp only [andThen_done]
    rw [for_u8_succ]
    cases body 1 m1 with
    | timeout m2 => simp
    | done m2 =>
      simp only [andThen_done]
      rw [for_u8_succ]
      cases body 2 m2 with
      | timeout m3 => simp
      | done m3 =>
        simp only [andThen_done]
        rw [for_u8_succ]
        simp

theorem repair_signature_eq (k : Nat) (m : Machine) :
    repair_signature (k + 4) m =
      .done { m with PORTC := 0x15, PORTD := 0x96, PORTB := 0x5F,
                     trace := m.trace ++ tr_repair_signature } := by
  simp [repair_signature, for_u8_three, send_command_eq, write_pulse_eq, out, emit, SIG1, SIG2, SIG3,
    tr_repair_signature, tr_repair_step]

theorem program_fuses_eq (m : Machine) :
    program_fuses m =
      { m with PORTC := 0x15, PORTD := 0x96, PORTB := 0xDF,
               trace := m.trace ++ tr_program_fuses } := by
  simp [program_fuses, send_command_eq, write_pulse_eq, out, emit, HFUSE, LFUSE, tr_program_fuses]

theorem chip_erase_eq (m : Machine) :
    chip_erase m =
      { m with PORTC := 0x15, PORTD := 0x96, PORTB := 0x80,
               trace := m.trace ++ tr_chip_erase } := by
  simp [chip_erase, send_command_eq, write_pulse_eq, out, emit, tr_chip_erase]

theorem enter_program_mode_eq (m : Machine) :
    enter_program_mode m =
      { m with PORTC := 0x19, PORTD := 0x94, trace := m.trace ++ tr_enter_program_mode } := by
  simp [enter_program_mode, out, emit, _delay_ms, STABLE_DELAY, PULSE_DELAY, tr_enter_program_mode]

theorem exit_program_mode_eq (m : Machine) :
    exit_program_mode m =
      { m with PORTC := 0x11, PORTD := 0x23, PORTB := 0x00,
               trace := m.trace ++ tr_exit_program_mode } := by
  simp [exit_program_mode, out, emit, tr_exit_program_mode]

/-! ## The feedback patterns -/

theorem led_bits : ∀ c < 256, (c ||| 1) % 256 = (c ||| 1) ∧ ((c ||| 1) &&& 0xFFFE) % 256 = (c &&& 0xFE)
    ∧ (c &&& 0xFE) < 256 ∧ ((c &&& 0xFE) ||| 1) = (c ||| 1) ∧ ((c &&& 0xFE) &&& 0xFE) = (c &&& 0xFE) := by
  decide

theorem buz_bits : ∀ c < 256, (c ||| 2) % 256 = (c ||| 2) ∧ ((c ||| 2) &&& 0xFFFD) % 256 = (c &&& 0xFD)
    ∧ (c &&& 0xFD) < 256 ∧ ((c &&& 0xFD) ||| 2) = (c ||| 2) ∧ ((c &&& 0xFD) &&& 0xFD) = (c &&& 0xFD) := by
  decide

theorem led_blink_eq (m : Machine) (h : m.PORTD < 256) :
    led_blink m = { m with PORTD := m.PORTD &&& 0xFE, trace := m.trace ++ tr_led_blink m.PORTD } := by
  obtain ⟨h1, h2, -, -, -⟩ := led_bits m.PORTD h
  have hc : compl 1 = 0xFFFE := by decide
  have hs : (1 <<< LED) = 1 := by decide
  simp [led_blink, out, emit, _delay_ms, tr_led_blink, hc, hs, h1, h2]

theorem tr_led_blink_clear (c : Nat) (h : c < 256) : tr_led_blink (c &&& 0xFE) = tr_led_blink c := by
  obtain ⟨-, -, -, h4, h5⟩ := led_bits c h
  simp [tr_led_blink, h4, h5]

theorem user_feedback_success_eq (k a : Nat) (m : Machine) (ha : a % 256 ≠ 0)
    (hc : m.PORTD < 256) :
    user_feedback (k + 4) a m =
      .done { m with PORTD := m.PORTD &&& 0xFE, trace := m.trace ++ tr_success (a % 256) m.PORTD } := by
  obtain ⟨-, -, h3, -, h5⟩ := led_bits m.PORTD hc
  obtain ⟨-, -, h3b, -, -⟩ := led_bits _ h3
  simp only [Nat.reduceAnd, h5] at h3b
  simp [user_feedback, ha, for_u8_three, emit, led_blink_eq, hc, h3, h3b, h5, tr_led_blink_clear,
    tr_success]


theorem buz_cycle_eq (m : Machine) (h : m.PORTD < 256) :
    buz_cycle m = { m with PORTD := m.PORTD &&& 0xFD, trace := m.trace ++ tr_buz_cycle m.PORTD } := by
  obtain ⟨h1, h2, -, -, -⟩ := buz_bits m.PORTD h
  have hc : compl 2 = 0xFFFD := by decide
  have hs : (1 <<< BUZ) = 2 := by decide
  simp [buz_cycle, out, emit, _delay_us, tr_buz_cycle, hc, hs, h1, h2]

theorem tr_buz_cycle_clear (c : Nat) (h : c < 256) : tr_buz_cycle (c &&& 0xFD) = tr_buz_cycle c := by
  obtain ⟨-, -, -, h4, h5⟩ := buz_bits c h
  simp [tr_buz_cycle, h4, h5]

theorem tr_buz_cycles_clear (c : Nat) (h : c < 256) (n : Nat) :
    tr_buz_cycles (c &&& 0xFD) n = tr_buz_cycles c n := by
  induction n with
  | zero => rfl
  | succ n ih => simp [tr_buz_cycles, ih, tr_buz_cycle_clear c h]

/-- A loop `for (uint8_t i = ..; i < 500; i++)` never leaves through its
condition: the counter stays below 256. -/
theorem for_u8_500_never (body : Nat → Machine → Outcome) (fuel : Nat) :
    ∀ (i : Nat) (m : Machine), i < 500 →
      (for_u8 (fun i => decide (i < 500)) body fuel i m).returned = false := by
  induction fuel with
  | zero => intro i m _; simp [for_u8_zero, Outcome.returned]
  | succ n ih =>
    intro i m hi
    rw [for_u8_succ]
    simp only [hi, decide_True, if_true]
    cases body i m with
    | timeout m1 => simp [Outcome.returned]
    | done m1 =>
      simp only [andThen_done]
      exact ih _ _ (by omega)

/-- The state the buzzer loop reaches after n phase pairs. -/
theorem buz_loop_eq (fuel : Nat) :
    ∀ (i : Nat) (m : Machine), i < 500 → m.PORTD < 256 →
      for_u8 (fun i => decide (i < 500)) (fun _ m => .done (buz_cycle m)) fuel i m =
        .timeout { m with PORTD := if fuel = 0 then m.PORTD else m.PORTD &&& 0xFD,
                          trace := m.trace ++ tr_buz_cycles m.PORTD fuel } := by
  induction fuel with
  | zero => intro i m _ _; simp [for_u8_zero, tr_buz_cycles]
  | succ n ih =>
    intro i m hi hc
    obtain ⟨-, -, h3, -, h5⟩ := buz_bits m.PORTD hc
    rw [for_u8_succ]
    simp only [hi, decide_True, if_true, andThen_done]
    rw [ih _ _ (by omega) (by simpa [buz_cycle_eq m hc] using h3)]
    simp [buz_cycle_eq m hc, tr_buz_cycles, tr_buz_cycles_clear _ hc, h5]

theorem user_feedback_failure_eq (fuel a : Nat) (m : Machine) (ha : a % 256 = 0)
    (hc : m.PORTD < 256) :
    user_feedback fuel a m =
      .timeout { m with PORTD := if fuel = 0 then m.PORTD else m.PORTD &&& 0xFD,
                        trace := m.trace ++ .call .user_feedback [0] :: tr_buz_cycles m.PORTD fuel } := by
  cases fuel with
  | zero => simp [user_feedback, ha, for_u8_zero, emit, tr_buz_cycles]
  | succ n =>
    simp [user_feedback, ha, for_u8_succ (fun i => decide (i < 3)), buz_loop_eq, hc, emit]


/-! ## C1: `read_signature` -/

/-- C1: for every three bytes b0, b1, b2 sampled by its three `read_byte` calls,
`read_signature` issues `send_command(0x08)`, `read_byte`, `send_command(0x09)`,
`read_byte`, `send_command(0x0A)`, `read_byte` in that order, leaves
`state.sig = [b0, b1, b2]`, and leaves `state.sig_valid` non-zero if and only if
(b0, b1, b2) = (0x1E, 0x91, 0x0F); any other triple gives `sig_valid = 0`. -/
theorem read_signature_contract (env : Env) (m : Machine) (b0 b1 b2 : Nat)
    (h0 : env.PINB m.nb = b0) (h1 : env.PINB (m.nb + 1) = b1)
    (h2 : env.PINB (m.nb + 2) = b2) :
    (read_signature env m).trace = m.trace ++ tr_read_signature b0 b1 b2
    ∧ callsAmong [.send_command, .read_byte] (tr_read_signature b0 b1 b2) =
        [(.send_command, [0x08]), (.read_byte, []), (.send_command, [0x09]), (.read_byte, []),
         (.send_command, [0x0A]), (.read_byte, [])]
    ∧ samples (tr_read_signature b0 b1 b2) = [b0, b1, b2]
    ∧ (read_signature env m).state.sig = [b0, b1, b2]
    ∧ ((read_signature env m).state.sig_valid ≠ 0 ↔ (b0, b1, b2) = (0x1E, 0x91, 0x0F))
    ∧ ((b0, b1, b2) ≠ (0x1E, 0x91, 0x0F) → (read_signature env m).state.sig_valid = 0) := by
  subst h0 h1 h2
  have hv : ∀ b : Bool, (b.toNat ≠ 0 ↔ b = true) ∧ (b ≠ true → b.toNat = 0) := by decide
  refine ⟨by rw [read_signature_eq], ?_, ?_, by rw [read_signature_eq]; rfl, ?_, ?_⟩
  · simp [callsAmong, tr_read_signature, tr_send_command, tr_read_byte, tr_xtal_pulse]
  · simp [samples, tr_read_signature, tr_send_command, tr_read_byte, tr_xtal_pulse]
  · rw [read_signature_eq]
    simp [(hv _).1, SIG1, SIG2, SIG3, and_assoc]
  · intro hne
    rw [read_signature_eq]
    apply (hv _).2
    simpa [SIG1, SIG2, SIG3, and_assoc] using hne

/-- C1 at a concrete input: a target showing 0x1E, 0x91, 0x0F. -/
theorem read_signature_contract_witness :
    (env_valid.PINB power_on.nb = 0x1E ∧ env_valid.PINB (power_on.nb + 1) = 0x91
      ∧ env_valid.PINB (power_on.nb + 2) = 0x0F)
    ∧ (read_signature env_valid power_on).trace = power_on.trace ++ tr_read_signature 0x1E 0x91 0x0F
    ∧ (read_signature env_valid power_on).state.sig = [0x1E, 0x91, 0x0F]
    ∧ (read_signature env_valid power_on).state.sig_valid ≠ 0 :=
  have h := read_signature_contract env_valid power_on 0x1E 0x91 0x0F rfl rfl rfl
  ⟨⟨rfl, rfl, rfl⟩, h.1, h.2.2.2.1, h.2.2.2.2.1.mpr rfl⟩

/-! ## C8: `read_byte` -/

/-- C8: for every prior port state and every byte v on `PINB` at the sampling
instant, `read_byte` sets `DDRB = 0x00`, writes `PORTC = 0x09` and
`CTRL_PORT = 0x94`, waits 150 ms, samples, restores `DDRB = 0xFF` and returns v;
`DATA_PORT` and the session state are unchanged. -/
theorem read_byte_contract (env : Env) (m : Machine) (v : Nat) (hv : env.PINB m.nb = v) :
    (read_byte env m).1 = v
    ∧ (read_byte env m).2.trace =
        m.trace ++ [.call .read_byte [], .write .DDRB 0x00, .write .PORTC 0x09,
          .write .PORTD 0x94, .delay_ms 150, .sample_pinb v, .write .DDRB 0xFF, .ret .read_byte]
    ∧ (read_byte env m).2.DDRB = 0xFF
    ∧ (read_byte env m).2.PORTC = 0x09
    ∧ (read_byte env m).2.PORTD = 0x94
    ∧ (read_byte env m).2.PORTB = m.PORTB
    ∧ (read_byte env m).2.state = m.state := by
  subst hv
  rw [read_byte_eq]
  simp [tr_read_byte]

/-- C8 at a concrete input: an all-zero sample taken while the data bus was
an input. -/
theorem read_byte_contract_witness :
    ({ pinb := fun _ => 0, pinc := fun _ => 0 } : Env).PINB
        ({ power_on with DDRB := 0x00, PORTB := 0xDF } : Machine).nb = 0x00
    ∧ (read_byte { pinb := fun _ => 0, pinc := fun _ => 0 }
        { power_on with DDRB := 0x00, PORTB := 0xDF }).1 = 0x00
    ∧ (read_byte { pinb := fun _ => 0, pinc := fun _ => 0 }
        { power_on with DDRB := 0x00, PORTB := 0xDF }).2.DDRB = 0xFF
    ∧ (read_byte { pinb := fun _ => 0, pinc := fun _ => 0 }
        { power_on with DDRB := 0x00, PORTB := 0xDF }).2.PORTB = 0xDF :=
  have h := read_byte_contract { pinb := fun _ => 0, pinc := fun _ => 0 }
    { power_on with DDRB := 0x00, PORTB := 0xDF } 0x00 rfl
  ⟨rfl, h.1, h.2.2.1, h.2.2.2.2.2.1⟩


/-! ## Whole sessions -/


theorem sig_check_false (b0 b1 b2 : Nat) (h : (b0, b1, b2) ≠ (0x1E, 0x91, 0x0F)) :
    (b0 == SIG1 && b1 == SIG2 && b2 == SIG3) = false := by
  cases hb : (b0 == SIG1 && b1 == SIG2 && b2 == SIG3) with
  | false => rfl
  | true =>
    exfalso
    apply h
    simp [SIG1, SIG2, SIG3] at hb
    simp [hb]

theorem sig_check_true : (0x1E == SIG1 && 0x91 == SIG2 && 0x0F == SIG3) = true := by decide

theorem and_148_253 : (148 &&& 253 : Nat) = 148 := by decide

theorem and_150_254 : (150 &&& 254 : Nat) = 150 := by decide

theorem main_session_valid (env : Env) (k : Nat) (m : Machine)
    (h0 : env.PINB m.nb = 0x1E) (h1 : env.PINB (m.nb + 1) = 0x91)
    (h2 : env.PINB (m.nb + 2) = 0x0F) :
    main_session env (k + 4) m =
      .done { m with
        DDRB := 0xFF, PORTB := 0x00, PORTC := 0x11, PORTD := 0x23,
        state := { sig0 := 0x1E, sig1 := 0x91, sig2 := 0x0F, sig_valid := 1 },
        nb := m.nb + 3,
        trace := m.trace ++ tr_session_valid } := by
  simp [main_session, enter_program_mode_eq, read_signature_eq, h0, h1, h2, sig_check_true,
    program_fuses_eq, chip_erase_eq, user_feedback_success_eq, exit_program_mode_eq,
    tr_session_valid, and_150_254]

theorem main_session_repaired (env : Env) (k : Nat) (m : Machine) (b0 b1 b2 : Nat)
    (h0 : env.PINB m.nb = b0) (h1 : env.PINB (m.nb + 1) = b1) (h2 : env.PINB (m.nb + 2) = b2)
    (hne : (b0, b1, b2) ≠ (0x1E, 0x91, 0x0F))
    (h3 : env.PINB (m.nb + 3) = 0x1E) (h4 : env.PINB (m.nb + 4) = 0x91)
    (h5 : env.PINB (m.nb + 5) = 0x0F) :
    main_session env (k + 4) m =
      .done { m with
        DDRB := 0xFF, PORTB := 0x00, PORTC := 0x11, PORTD := 0x23,
        state := { sig0 := 0x1E, sig1 := 0x91, sig2 := 0x0F, sig_valid := 1 },
        nb := m.nb + 6,
        trace := m.trace ++ tr_session_repaired b0 b1 b2 } := by
  have hf := sig_check_false b0 b1 b2 hne
  simp [main_session, enter_program_mode_eq, read_signature_eq, h0, h1, h2, hf,
    repair_signature_eq, Nat.add_assoc, h3, h4, h5, sig_check_true,
    program_fuses_eq, chip_erase_eq, user_feedback_success_eq, exit_program_mode_eq,
    tr_session_repaired, and_150_254]

theorem main_session_failed (env : Env) (k : Nat) (m : Machine) (b0 b1 b2 b3 b4 b5 : Nat)
    (h0 : env.PINB m.nb = b0) (h1 : env.PINB (m.nb + 1) = b1) (h2 : env.PINB (m.nb + 2) = b2)
    (hne : (b0, b1, b2) ≠ (0x1E, 0x91, 0x0F))
    (h3 : env.PINB (m.nb + 3) = b3) (h4 : env.PINB (m.nb + 4) = b4)
    (h5 : env.PINB (m.nb + 5) = b5)
    (hne2 : (b3, b4, b5) ≠ (0x1E, 0x91, 0x0F)) :
    main_session env (k + 4) m =
      .timeout { m with
        DDRB := 0xFF, PORTB := 0x0A, PORTC := 0x09, PORTD := 0x94,
        state := { sig0 := b3, sig1 := b4, sig2 := b5, sig_valid := 0 },
        nb := m.nb + 6,
        trace := m.trace ++ tr_session_failed b0 b1 b2 b3 b4 b5 (k + 4) } := by
  have hf := sig_check_false b0 b1 b2 hne
  have hf2 := sig_check_false b3 b4 b5 hne2
  simp [main_session, enter_program_mode_eq, read_signature_eq, h0, h1, h2, hf,
    repair_signature_eq, Nat.add_assoc, h3, h4, h5, hf2,
    user_feedback_failure_eq, tr_session_failed, and_148_253]


/-! ## C10: `repair_signature` -/

/-- C10: with enough fuel `repair_signature` returns, having performed exactly
`send_command(0xAC)`, `send_command(0x5E)`; for i = 0, 1, 2:
`send_command(0x08 + i)`, `DATA_PORT` = i-th expected signature byte,
`PORTC = 0x15`, one write pulse; then `send_command(0xAC)`, `send_command(0x5F)`,
`PORTC = 0x15`, one write pulse.  That is 7 commands and 4 write pulses, the
data bus holds the i-th expected byte at the i-th write pulse, no `read_byte`
happens and `state` is unchanged. -/
theorem repair_signature_contract (k : Nat) (m : Machine) :
    (repair_signature (k + 4) m).returned = true
    ∧ (repair_signature (k + 4) m).machine.trace =
        m.trace ++
          ([.call .repair_signature []]
            ++ tr_send_command 0xAC ++ tr_send_command 0x5E
            ++ (tr_send_command 0x08 ++ [.write .PORTB 0x1E, .write .PORTC 0x15] ++ tr_write_pulse)
            ++ (tr_send_command 0x09 ++ [.write .PORTB 0x91, .write .PORTC 0x15] ++ tr_write_pulse)
            ++ (tr_send_command 0x0A ++ [.write .PORTB 0x0F, .write .PORTC 0x15] ++ tr_write_pulse)
            ++ tr_send_command 0xAC ++ tr_send_command 0x5F
            ++ [.write .PORTC 0x15] ++ tr_write_pulse
            ++ [.ret .repair_signature])
    ∧ callsAmong [.send_command, .generate_write_pulse, .read_byte]
          (new_events m (repair_signature (k + 4) m).machine) =
        [(.send_command, [0xAC]), (.send_command, [0x5E]),
         (.send_command, [0x08]), (.generate_write_pulse, []),
         (.send_command, [0x09]), (.generate_write_pulse, []),
         (.send_command, [0x0A]), (.generate_write_pulse, []),
         (.send_command, [0xAC]), (.send_command, [0x5F]), (.generate_write_pulse, [])]
    ∧ countCall .send_command (new_events m (repair_signature (k + 4) m).machine) = 7
    ∧ countCall .generate_write_pulse (new_events m (repair_signature (k + 4) m).machine) = 4
    ∧ dataAtWritePulses m.PORTB (new_events m (repair_signature (k + 4) m).machine) =
        [0x1E, 0x91, 0x0F, 0x5F]
    ∧ countCall .read_byte (new_events m (repair_signature (k + 4) m).machine) = 0
    ∧ samples (new_events m (repair_signature (k + 4) m).machine) = []
    ∧ (repair_signature (k + 4) m).machine.state = m.state
    ∧ (repair_signature (k + 4) m).machine.nb = m.nb := by
  have hn : new_events m (repair_signature (k + 4) m).machine = tr_repair_signature := by
    rw [repair_signature_eq]
    simp [new_events, Outcome.machine]
  rw [hn]
  rw [repair_signature_eq]
  refine ⟨rfl, rfl, ?_, ?_, ?_, ?_, ?_, ?_, rfl, rfl⟩
  · rfl
  · rfl
  · rfl
  · rfl
  · rfl
  · rfl


/-! ## C9: the success pattern -/

theorem led_frame : ∀ c < 256,
    (c ||| 1) &&& 0xFE = c &&& 0xFE ∧ (c &&& 0xFE) &&& 0xFE = c &&& 0xFE
    ∧ (c ||| 1) &&& (1 <<< BUZ) = c &&& (1 <<< BUZ)
    ∧ (c &&& 0xFE) &&& (1 <<< BUZ) = c &&& (1 <<< BUZ)
    ∧ (c ||| 1) &&& (1 <<< LED) = 1 <<< LED ∧ (c &&& 0xFE) &&& (1 <<< LED) = 0 := by
  decide

/-- C9: for every non-zero `uint8_t` argument a and every control-port byte c,
`user_feedback(a)` returns after setting and clearing the LED bit (PD0) exactly
three times with 100 ms after each set and each clear (six phases, 600 ms);
every value it stores to `CTRL_PORT` agrees with c on all bits other than LED
(in particular BUZ), and on return `CTRL_PORT` is c with the LED bit cleared. -/
theorem user_feedback_success_contract (k a c : Nat) (m : Machine)
    (ha : a ≠ 0) (ha8 : a < 256) (hc : m.PORTD = c) (hc8 : c < 256) :
    (user_feedback (k + 4) a m).returned = true
    ∧ (user_feedback (k + 4) a m).machine.trace =
        m.trace ++
          [.call .user_feedback [a],
           .write .PORTD (c ||| 1 <<< LED), .delay_ms 100,
           .write .PORTD (c &&& 0xFE), .delay_ms 100,
           .write .PORTD (c ||| 1 <<< LED), .delay_ms 100,
           .write .PORTD (c &&& 0xFE), .delay_ms 100,
           .write .PORTD (c ||| 1 <<< LED), .delay_ms 100,
           .write .PORTD (c &&& 0xFE), .delay_ms 100,
           .ret .user_feedback]
    ∧ delaysMs (new_events m (user_feedback (k + 4) a m).machine) =
        [100, 100, 100, 100, 100, 100]
    ∧ (delaysMs (new_events m (user_feedback (k + 4) a m).machine)).sum = 600
    ∧ (∀ v ∈ ctrlWrites (new_events m (user_feedback (k + 4) a m).machine),
        v &&& 0xFE = c &&& 0xFE ∧ v &&& (1 <<< BUZ) = c &&& (1 <<< BUZ))
    ∧ (c ||| 1 <<< LED) &&& (1 <<< LED) = 1 <<< LED
    ∧ (c &&& 0xFE) &&& (1 <<< LED) = 0
    ∧ (user_feedback (k + 4) a m).machine.PORTD = c &&& 0xFE
    ∧ (user_feedback (k + 4) a m).machine.state = m.state
    ∧ (user_feedback (k + 4) a m).machine.PORTB = m.PORTB
    ∧ (user_feedback (k + 4) a m).machine.PORTC = m.PORTC := by
  subst hc
  have ha' : a % 256 ≠ 0 := by rw [Nat.mod_eq_of_lt ha8]; exact ha
  obtain ⟨f1, f2, f3, f4, f5, f6⟩ := led_frame m.PORTD hc8
  have hn : new_events m (user_feedback (k + 4) a m).machine = tr_success a m.PORTD := by
    rw [user_feedback_success_eq k a m ha' hc8]
    simp [new_events, Outcome.machine, Nat.mod_eq_of_lt ha8]
  rw [hn, user_feedback_success_eq k a m ha' hc8]
  refine ⟨rfl, ?_, rfl, rfl, ?_, f5, f6, rfl, rfl, rfl, rfl⟩
  · simp [Outcome.machine, tr_success, tr_led_blink, Nat.mod_eq_of_lt ha8, LED]
  · intro v hv
    simp only [ctrlWrites, tr_success, tr_led_blink, List.filterMap_cons, List.filterMap_nil,
      List.cons_append, List.nil_append, List.mem_cons, List.mem_singleton, List.not_mem_nil,
      or_false, or_self, List.append_assoc] at hv
    rcases hv with h | h | h | h | h | h <;> subst h <;> first | exact ⟨f1, f3⟩ | exact ⟨f2, f4⟩

/-- C9 at a concrete input: `user_feedback(1)` entered with `CTRL_PORT = 0x96`,
as after `chip_erase`. -/
theorem user_feedback_success_contract_witness :
    ((1 : Nat) ≠ 0 ∧ (1 : Nat) < 256 ∧ ({ power_on with PORTD := 0x96 } : Machine).PORTD = 0x96
      ∧ (0x96 : Nat) < 256)
    ∧ (user_feedback 4 1 { power_on with PORTD := 0x96 }).returned = true
    ∧ ctrlWrites (user_feedback 4 1 { power_on with PORTD := 0x96 }).machine.trace =
        [0x97, 0x96, 0x97, 0x96, 0x97, 0x96]
    ∧ (user_feedback 4 1 { power_on with PORTD := 0x96 }).machine.PORTD = 0x96 :=
  have h := user_feedback_success_contract 0 1 0x96 { power_on with PORTD := 0x96 }
    (by decide) (by decide) rfl (by decide)
  ⟨⟨by decide, by decide, rfl, by decide⟩, h.1, by rw [h.2.1]; rfl, h.2.2.2.2.2.2.2.1⟩


/-! ## C4: the failure pattern -/

theorem delaysUs_buz_cycles (c n : Nat) :
    delaysUs (tr_buz_cycles c n) = List.replicate (2 * n) 50 := by
  induction n with
  | zero => rfl
  | succ n ih =>
    have h2 : 2 * (n + 1) = (2 * n + 1) + 1 := by omega
    rw [h2, List.replicate_succ, List.replicate_succ, ← ih]
    simp [tr_buz_cycles, tr_buz_cycle, delaysUs]

theorem ctrlWrites_buz_cycles_length (c n : Nat) :
    (ctrlWrites (tr_buz_cycles c n)).length = 2 * n := by
  induction n with
  | zero => rfl
  | succ n ih =>
    simp only [ctrlWrites] at ih
    simp [tr_buz_cycles, tr_buz_cycle, ctrlWrites, ih]
    omega

theorem countCall_buz_cycles (f : Fn) (c n : Nat) : countCall f (tr_buz_cycles c n) = 0 := by
  induction n with
  | zero => rfl
  | succ n ih =>
    simp only [countCall] at ih
    simp [tr_buz_cycles, tr_buz_cycle, countCall, ih]

/-- C4, as the code runs: `user_feedback(0)` never returns.  The inner loop
counter is a `uint8_t` compared with 500, so its condition is always true;
whatever the fuel, the run is still in the first burst.  Entered with
`CTRL_PORT = 0x94` it has then emitted `fuel` set/clear pairs of BUZ (so more
than 500 in one burst) with 50 µs after each store, and no return. -/
theorem user_feedback_failure_never_returns (fuel : Nat) (m : Machine) :
    (user_feedback fuel 0 m).returned = false
    ∧ (user_feedback fuel 0 { power_on with PORTD := 0x94 }).machine.trace =
        .call .user_feedback [0] :: tr_buz_cycles 0x94 fuel
    ∧ delaysUs (tr_buz_cycles 0x94 fuel) = List.replicate (2 * fuel) 50
    ∧ (ctrlWrites (tr_buz_cycles 0x94 fuel)).length = 2 * fuel := by
  refine ⟨?_, ?_, delaysUs_buz_cycles _ _, ctrlWrites_buz_cycles_length _ _⟩
  · cases fuel with
    | zero => simp [user_feedback, for_u8_zero, Outcome.returned]
    | succ n =>
      have h := for_u8_500_never (fun _ m => .done (buz_cycle m)) (n + 1) 0
        (emit (.call .user_feedback [0]) m) (by decide)
      simp only [user_feedback, Nat.zero_mod, ne_eq, not_true_eq_false, if_false]
      rw [for_u8_succ]
      simp only [Nat.ofNat_pos, decide_True, if_true]
      cases hin : for_u8 (fun i => decide (i < 500)) (fun _ m => Outcome.done (buz_cycle m))
          (n + 1) 0 (emit (.call .user_feedback [0]) m) with
      | timeout m1 => simp [Outcome.returned]
      | done m1 => rw [hin] at h; simp [Outcome.returned] at h
  · rw [user_feedback_failure_eq fuel 0 _ rfl (by decide)]
    simp [Outcome.machine, power_on]


/-! ## C5: scenario A, the first signature read is valid -/

theorem new_events_append (m m1 : Machine) (evs : List Event) (h : m1.trace = m.trace ++ evs) :
    new_events m m1 = evs := by
  simp [new_events, h]

/-- C5, refuted as stated: in a session whose first read samples
0x1E, 0x91, 0x0F the buzzer line is not idle.  The control patterns 0x23 and
0x96 have the BUZ bit (PD1) set, so stores to `CTRL_PORT` drive BUZ high and
its level changes eight times during the session. -/
theorem scenario_valid_buzzer_line_driven :
    (env_valid.PINB power_on.nb = 0x1E ∧ env_valid.PINB (power_on.nb + 1) = 0x91
      ∧ env_valid.PINB (power_on.nb + 2) = 0x0F)
    ∧ (main_session env_valid 4 power_on).returned = true
    ∧ ¬ (∀ v ∈ ctrlWrites (main_session env_valid 4 power_on).machine.trace,
          v.testBit BUZ = false)
    ∧ 0x96 ∈ ctrlWrites (main_session env_valid 4 power_on).machine.trace
    ∧ Nat.testBit 0x96 BUZ = true
    ∧ levelChanges (bitLevels BUZ (main_session env_valid 4 power_on).machine.trace) = 8 := by
  have h := main_session_valid env_valid 0 power_on rfl rfl rfl
  rw [show (0 + 4 : Nat) = 4 from rfl] at h
  rw [h]
  refine ⟨⟨rfl, rfl, rfl⟩, rfl, ?_, by decide, by decide, by rfl⟩
  intro hall
  exact absurd (hall 0x96 (by decide)) (by decide)

/-- C5, amended: if the first `read_signature` of a session samples
0x1E, 0x91, 0x0F, the session returns and its trace is `enter_program_mode`,
one `read_signature`, `program_fuses`, `chip_erase`, the success pattern
`user_feedback(1)`, `exit_program_mode`.  There is no `repair_signature` (no
`send_command(0xAC)`, no `send_command(0x5E)`) and no second `read_signature`;
`program_fuses` runs once (`send_command(0x40)` twice), then `chip_erase` once
(`send_command(0x80)` once, then `PORTC = 0x15` and one write pulse), then the
success pattern; the failure pattern is never executed (no `user_feedback(0)`,
no 50 µs phase). -/
theorem scenario_valid (env : Env) (k : Nat) (m : Machine)
    (h0 : env.PINB m.nb = 0x1E) (h1 : env.PINB (m.nb + 1) = 0x91)
    (h2 : env.PINB (m.nb + 2) = 0x0F) :
    (main_session env (k + 4) m).returned = true
    ∧ (main_session env (k + 4) m).machine.trace =
        m.trace ++
          (tr_enter_program_mode ++ tr_read_signature 0x1E 0x91 0x0F
            ++ ([.call .program_fuses []]
                ++ tr_send_command 0x40 ++ [.write .PORTB 0x64, .write .PORTC 0x17]
                ++ tr_write_pulse
                ++ tr_send_command 0x40 ++ [.write .PORTB 0xDF, .write .PORTC 0x15]
                ++ tr_write_pulse
                ++ [.ret .program_fuses])
            ++ ([.call .chip_erase []]
                ++ tr_send_command 0x80 ++ [.write .PORTC 0x15] ++ tr_write_pulse
                ++ [.ret .chip_erase])
            ++ tr_success 1 0x96 ++ tr_exit_program_mode)
    ∧ callsAmong [.enter_program_mode, .read_signature, .repair_signature, .program_fuses,
          .chip_erase, .user_feedback, .exit_program_mode]
          (new_events m (main_session env (k + 4) m).machine) =
        [(.enter_program_mode, []), (.read_signature, []), (.program_fuses, []),
         (.chip_erase, []), (.user_feedback, [1]), (.exit_program_mode, [])]
    ∧ countCall .repair_signature (new_events m (main_session env (k + 4) m).machine) = 0
    ∧ countCmd 0xAC (new_events m (main_session env (k + 4) m).machine) = 0
    ∧ countCmd 0x5E (new_events m (main_session env (k + 4) m).machine) = 0
    ∧ countCall .read_signature (new_events m (main_session env (k + 4) m).machine) = 1
    ∧ countCall .program_fuses (new_events m (main_session env (k + 4) m).machine) = 1
    ∧ countCmd 0x40 (new_events m (main_session env (k + 4) m).machine) = 2
    ∧ countCall .chip_erase (new_events m (main_session env (k + 4) m).machine) = 1
    ∧ countCmd 0x80 (new_events m (main_session env (k + 4) m).machine) = 1
    ∧ (new_events m (main_session env (k + 4) m).machine).count (.call .user_feedback [0]) = 0
    ∧ delaysUs (new_events m (main_session env (k + 4) m).machine) = [] := by
  have hn : new_events m (main_session env (k + 4) m).machine = tr_session_valid := by
    rw [main_session_valid env k m h0 h1 h2]
    exact new_events_append _ _ _ rfl
  rw [hn, main_session_valid env k m h0 h1 h2]
  exact ⟨rfl, rfl, rfl, rfl, rfl, rfl, rfl, rfl, rfl, rfl, rfl, rfl, rfl⟩

/-- C5 (amended) at a concrete input: the target `env_valid` from power-on. -/
theorem scenario_valid_witness :
    (env_valid.PINB power_on.nb = 0x1E ∧ env_valid.PINB (power_on.nb + 1) = 0x91
      ∧ env_valid.PINB (power_on.nb + 2) = 0x0F)
    ∧ (main_session env_valid 4 power_on).returned = true
    ∧ countCmd 0x40 (new_events power_on (main_session env_valid 4 power_on).machine) = 2
    ∧ countCmd 0x80 (new_events power_on (main_session env_valid 4 power_on).machine) = 1 :=
  have h := scenario_valid env_valid 0 power_on rfl rfl rfl
  ⟨⟨rfl, rfl, rfl⟩, h.1, h.2.2.2.2.2.2.2.2.1, h.2.2.2.2.2.2.2.2.2.2.1⟩


/-! ## Observations distribute over concatenation -/

theorem calls_append (a b : List Event) : calls (a ++ b) = calls a ++ calls b := by
  simp [calls, List.filterMap_append]

theorem samples_append (a b : List Event) : samples (a ++ b) = samples a ++ samples b := by
  simp [samples, List.filterMap_append]

theorem ctrlWrites_append (a b : List Event) :
    ctrlWrites (a ++ b) = ctrlWrites a ++ ctrlWrites b := by
  simp [ctrlWrites, List.filterMap_append]

theorem delaysMs_append (a b : List Event) : delaysMs (a ++ b) = delaysMs a ++ delaysMs b := by
  simp [delaysMs, List.filterMap_append]

theorem delaysUs_append (a b : List Event) : delaysUs (a ++ b) = delaysUs a ++ delaysUs b := by
  simp [delaysUs, List.filterMap_append]

theorem countCall_eq_calls (f : Fn) (tr : List Event) :
    countCall f tr = (calls tr).countP fun p => decide (p.1 = f) := by
  induction tr with
  | nil => rfl
  | cons e tr ih =>
    simp only [countCall] at ih
    cases e <;> simp [countCall, calls, List.countP_cons, ih]

theorem count_call_eq_calls (f : Fn) (a : List Nat) (tr : List Event) :
    tr.count (.call f a) = (calls tr).count (f, a) := by
  induction tr with
  | nil => rfl
  | cons e tr ih =>
    cases e <;> simp [calls, List.count_cons, ih]

theorem countCmd_eq_calls (c : Nat) (tr : List Event) :
    countCmd c tr = (calls tr).count (.send_command, [c]) :=
  count_call_eq_calls _ _ _

theorem callsAmong_eq_calls (fs : List Fn) (tr : List Event) :
    callsAmong fs tr = (calls tr).filter fun p => decide (p.1 ∈ fs) := by
  induction tr with
  | nil => rfl
  | cons e tr ih =>
    simp only [callsAmong, calls] at ih
    cases e with
    | call f a =>
      by_cases h : f ∈ fs <;>
        simp [callsAmong, calls, List.filterMap_cons, List.filter_cons, h, ih]
    | _ => simp [callsAmong, calls, List.filterMap_cons, ih]

/-! ## Observations that ignore the sampled bytes -/

theorem calls_read_signature (b0 b1 b2 : Nat) :
    calls (tr_read_signature b0 b1 b2) = calls (tr_read_signature 0 0 0) := rfl

theorem ctrlWrites_read_signature (b0 b1 b2 : Nat) :
    ctrlWrites (tr_read_signature b0 b1 b2) = ctrlWrites (tr_read_signature 0 0 0) := rfl

theorem delaysMs_read_signature (b0 b1 b2 : Nat) :
    delaysMs (tr_read_signature b0 b1 b2) = delaysMs (tr_read_signature 0 0 0) := rfl

theorem delaysUs_read_signature (b0 b1 b2 : Nat) :
    delaysUs (tr_read_signature b0 b1 b2) = delaysUs (tr_read_signature 0 0 0) := rfl

theorem samples_read_signature (b0 b1 b2 : Nat) :
    samples (tr_read_signature b0 b1 b2) = [b0, b1, b2] := rfl

theorem calls_session_repaired (b0 b1 b2 : Nat) :
    calls (tr_session_repaired b0 b1 b2) = calls (tr_session_repaired 0 0 0) := by
  simp only [tr_session_repaired, calls_append, calls_read_signature b0 b1 b2]

theorem delaysUs_session_repaired (b0 b1 b2 : Nat) :
    delaysUs (tr_session_repaired b0 b1 b2) = delaysUs (tr_session_repaired 0 0 0) := by
  simp only [tr_session_repaired, delaysUs_append, delaysUs_read_signature b0 b1 b2]

theorem samples_session_repaired (b0 b1 b2 : Nat) :
    samples (tr_session_repaired b0 b1 b2) = [b0, b1, b2, 0x1E, 0x91, 0x0F] := by
  simp only [tr_session_repaired, samples_append, samples_read_signature]
  rfl


/-! ## C6: scenario B, the signature is valid after the repair -/

/-- C6: if the first `read_signature` of a session samples a triple other than
0x1E, 0x91, 0x0F and the second one, after the repair, samples 0x1E, 0x91, 0x0F,
the session returns and its trace is `enter_program_mode`, `read_signature`,
`repair_signature`, `read_signature`, `program_fuses`, `chip_erase`, the success
pattern `user_feedback(1)`, `exit_program_mode`: one repair, two reads, one
`program_fuses` and one `chip_erase` in that order, then the success pattern,
and no failure pattern. -/
theorem scenario_repaired (env : Env) (k : Nat) (m : Machine) (b0 b1 b2 : Nat)
    (h0 : env.PINB m.nb = b0) (h1 : env.PINB (m.nb + 1) = b1) (h2 : env.PINB (m.nb + 2) = b2)
    (hne : (b0, b1, b2) ≠ (0x1E, 0x91, 0x0F))
    (h3 : env.PINB (m.nb + 3) = 0x1E) (h4 : env.PINB (m.nb + 4) = 0x91)
    (h5 : env.PINB (m.nb + 5) = 0x0F) :
    (main_session env (k + 4) m).returned = true
    ∧ (main_session env (k + 4) m).machine.trace =
        m.trace ++
          (tr_enter_program_mode ++ tr_read_signature b0 b1 b2 ++ tr_repair_signature
            ++ tr_read_signature 0x1E 0x91 0x0F
            ++ tr_program_fuses ++ tr_chip_erase ++ tr_success 1 0x96 ++ tr_exit_program_mode)
    ∧ callsAmong [.enter_program_mode, .read_signature, .repair_signature, .program_fuses,
          .chip_erase, .user_feedback, .exit_program_mode]
          (new_events m (main_session env (k + 4) m).machine) =
        [(.enter_program_mode, []), (.read_signature, []), (.repair_signature, []),
         (.read_signature, []), (.program_fuses, []), (.chip_erase, []),
         (.user_feedback, [1]), (.exit_program_mode, [])]
    ∧ samples (new_events m (main_session env (k + 4) m).machine) =
        [b0, b1, b2, 0x1E, 0x91, 0x0F]
    ∧ countCall .repair_signature (new_events m (main_session env (k + 4) m).machine) = 1
    ∧ countCall .read_signature (new_events m (main_session env (k + 4) m).machine) = 2
    ∧ countCall .program_fuses (new_events m (main_session env (k + 4) m).machine) = 1
    ∧ countCall .chip_erase (new_events m (main_session env (k + 4) m).machine) = 1
    ∧ countCall .user_feedback (new_events m (main_session env (k + 4) m).machine) = 1
    ∧ (new_events m (main_session env (k + 4) m).machine).count (.call .user_feedback [0]) = 0
    ∧ delaysUs (new_events m (main_session env (k + 4) m).machine) = [] := by
  have hs := main_session_repaired env k m b0 b1 b2 h0 h1 h2 hne h3 h4 h5
  have hn : new_events m (main_session env (k + 4) m).machine = tr_session_repaired b0 b1 b2 := by
    rw [hs]
    exact new_events_append _ _ _ rfl
  rw [hn, hs]
  refine ⟨rfl, rfl, ?_, samples_session_repaired _ _ _, ?_, ?_, ?_, ?_, ?_, ?_, ?_⟩
  · rw [callsAmong_eq_calls, calls_session_repaired]; rfl
  · rw [countCall_eq_calls, calls_session_repaired]; rfl
  · rw [countCall_eq_calls, calls_session_repaired]; rfl
  · rw [countCall_eq_calls, calls_session_repaired]; rfl
  · rw [countCall_eq_calls, calls_session_repaired]; rfl
  · rw [countCall_eq_calls, calls_session_repaired]; rfl
  · rw [count_call_eq_calls, calls_session_repaired]; rfl
  · rw [delaysUs_session_repaired]; rfl

/-- C6 at a concrete input: the target `env_repaired` from power-on. -/
theorem scenario_repaired_witness :
    (env_repaired.PINB power_on.nb = 0xFF ∧ env_repaired.PINB (power_on.nb + 1) = 0xFF
      ∧ env_repaired.PINB (power_on.nb + 2) = 0xFF
      ∧ ((0xFF, 0xFF, 0xFF) : Nat × Nat × Nat) ≠ (0x1E, 0x91, 0x0F)
      ∧ env_repaired.PINB (power_on.nb + 3) = 0x1E ∧ env_repaired.PINB (power_on.nb + 4) = 0x91
      ∧ env_repaired.PINB (power_on.nb + 5) = 0x0F)
    ∧ (main_session env_repaired 4 power_on).returned = true
    ∧ countCall .repair_signature
        (new_events power_on (main_session env_repaired 4 power_on).machine) = 1
    ∧ countCall .read_signature
        (new_events power_on (main_session env_repaired 4 power_on).machine) = 2 :=
  have h := scenario_repaired env_repaired 0 power_on 0xFF 0xFF 0xFF rfl rfl rfl (by decide)
    rfl rfl rfl
  ⟨⟨rfl, rfl, rfl, by decide, rfl, rfl, rfl⟩, h.1, h.2.2.2.2.1, h.2.2.2.2.2.1⟩


/-! ## C7: scenario C, the signature stays invalid -/

theorem calls_buz_cycles (c n : Nat) : calls (tr_buz_cycles c n) = [] := by
  induction n with
  | zero => rfl
  | succ n ih => rw [tr_buz_cycles, calls_append, ih]; rfl

theorem delaysMs_buz_cycles (c n : Nat) : delaysMs (tr_buz_cycles c n) = [] := by
  induction n with
  | zero => rfl
  | succ n ih => rw [tr_buz_cycles, delaysMs_append, ih]; rfl

theorem ctrlWrites_buz_cycles (n : Nat) :
    ∀ v ∈ ctrlWrites (tr_buz_cycles 0x94 n), v = 0x96 ∨ v = 0x94 := by
  induction n with
  | zero => intro v hv; simp [tr_buz_cycles, ctrlWrites] at hv
  | succ n ih =>
    intro v hv
    rw [tr_buz_cycles, ctrlWrites_append, List.mem_append] at hv
    rcases hv with h | h
    · have hc : ctrlWrites (tr_buz_cycle 0x94) = [0x96, 0x94] := rfl
      rw [hc] at h
      simpa using h
    · exact ih v h

theorem calls_session_failed (b0 b1 b2 b3 b4 b5 n : Nat) :
    calls (tr_session_failed b0 b1 b2 b3 b4 b5 n) = calls (tr_session_failed 0 0 0 0 0 0 0) := by
  simp only [tr_session_failed, calls_append, calls_read_signature b0 b1 b2,
    calls_read_signature b3 b4 b5, calls_buz_cycles]

theorem delaysMs_session_failed (b0 b1 b2 b3 b4 b5 n : Nat) :
    delaysMs (tr_session_failed b0 b1 b2 b3 b4 b5 n) =
      delaysMs (tr_session_failed 0 0 0 0 0 0 0) := by
  simp only [tr_session_failed, delaysMs_append, delaysMs_read_signature b0 b1 b2,
    delaysMs_read_signature b3 b4 b5, delaysMs_buz_cycles]

theorem ctrlWrites_session_failed (b0 b1 b2 b3 b4 b5 n : Nat) :
    ctrlWrites (tr_session_failed b0 b1 b2 b3 b4 b5 n) =
      ctrlWrites (tr_session_failed 0 0 0 0 0 0 0) ++ ctrlWrites (tr_buz_cycles 0x94 n) := by
  simp only [tr_session_failed, ctrlWrites_append, ctrlWrites_read_signature b0 b1 b2,
    ctrlWrites_read_signature b3 b4 b5, tr_buz_cycles, List.append_assoc]
  rfl

/-- C7, refuted as stated: in a session whose two signature reads both fail the
LED does change state.  `enter_program_mode` stores 0x23, which has the LED bit
(PD0) set, and 1250 ms later 0x14, which clears it. -/
theorem scenario_failed_led_changes :
    ((env_blank.PINB power_on.nb, env_blank.PINB (power_on.nb + 1),
        env_blank.PINB (power_on.nb + 2)) ≠ (0x1E, 0x91, 0x0F)
      ∧ (env_blank.PINB (power_on.nb + 3), env_blank.PINB (power_on.nb + 4),
        env_blank.PINB (power_on.nb + 5)) ≠ (0x1E, 0x91, 0x0F))
    ∧ (ctrlWrites (main_session env_blank 4 power_on).machine.trace).take 2 = [0x23, 0x14]
    ∧ (bitLevels LED (main_session env_blank 4 power_on).machine.trace).take 2 = [true, false]
    ∧ levelChanges (bitLevels LED (main_session env_blank 4 power_on).machine.trace) = 1
    ∧ ¬ (levelChanges (bitLevels LED (main_session env_blank 4 power_on).machine.trace) = 0) := by
  have h := main_session_failed env_blank 0 power_on 0xFF 0xFF 0xFF 0xFF 0xFF 0xFF
    rfl rfl rfl (by decide) rfl rfl rfl (by decide)
  rw [show (0 + 4 : Nat) = 4 from rfl] at h
  rw [h]
  refine ⟨⟨by decide, by decide⟩, by rfl, by rfl, by rfl, ?_⟩
  have h1 : levelChanges (bitLevels LED (Outcome.timeout
      { power_on with
        DDRB := 0xFF, PORTB := 0x0A, PORTC := 0x09, PORTD := 0x94,
        state := { sig0 := 0xFF, sig1 := 0xFF, sig2 := 0xFF, sig_valid := 0 },
        nb := power_on.nb + 6,
        trace := power_on.trace ++ tr_session_failed 0xFF 0xFF 0xFF 0xFF 0xFF 0xFF 4 }).machine.trace)
      = 1 := by rfl
  rw [h1]
  decide


/-- C7, amended: if both `read_signature` calls of a session sample triples
other than 0x1E, 0x91, 0x0F, then the run executes `enter_program_mode`,
`read_signature`, `repair_signature` (once), `read_signature` and enters
`user_feedback(0)`, whose buzzer phases follow (the BUZ line is driven).  It
never sends `send_command(0x40)` or `send_command(0x80)`, never calls
`program_fuses` or `chip_erase`, and never executes the success pattern (no
`user_feedback(1)`, no 100 ms phase).  The LED bit is set only by the first store
of `enter_program_mode` (0x23) and cleared by the next one (0x14); no later
store sets it. -/
theorem scenario_failed (env : Env) (k : Nat) (m : Machine) (b0 b1 b2 b3 b4 b5 : Nat)
    (h0 : env.PINB m.nb = b0) (h1 : env.PINB (m.nb + 1) = b1) (h2 : env.PINB (m.nb + 2) = b2)
    (hne : (b0, b1, b2) ≠ (0x1E, 0x91, 0x0F))
    (h3 : env.PINB (m.nb + 3) = b3) (h4 : env.PINB (m.nb + 4) = b4)
    (h5 : env.PINB (m.nb + 5) = b5)
    (hne2 : (b3, b4, b5) ≠ (0x1E, 0x91, 0x0F)) :
    (main_session env (k + 4) m).machine.trace =
        m.trace ++
          (tr_enter_program_mode ++ tr_read_signature b0 b1 b2 ++ tr_repair_signature
            ++ tr_read_signature b3 b4 b5
            ++ [.call .user_feedback [0]]
            ++ ([.write .PORTD 0x96, .delay_us 50, .write .PORTD 0x94, .delay_us 50]
                ++ tr_buz_cycles 0x94 (k + 3)))
    ∧ Nat.testBit 0x96 BUZ = true
    ∧ callsAmong [.enter_program_mode, .read_signature, .repair_signature, .program_fuses,
          .chip_erase, .user_feedback, .exit_program_mode]
          (new_events m (main_session env (k + 4) m).machine) =
        [(.enter_program_mode, []), (.read_signature, []), (.repair_signature, []),
         (.read_signature, []), (.user_feedback, [0])]
    ∧ countCall .repair_signature (new_events m (main_session env (k + 4) m).machine) = 1
    ∧ countCmd 0x40 (new_events m (main_session env (k + 4) m).machine) = 0
    ∧ countCmd 0x80 (new_events m (main_session env (k + 4) m).machine) = 0
    ∧ countCall .program_fuses (new_events m (main_session env (k + 4) m).machine) = 0
    ∧ countCall .chip_erase (new_events m (main_session env (k + 4) m).machine) = 0
    ∧ (new_events m (main_session env (k + 4) m).machine).count (.call .user_feedback [1]) = 0
    ∧ 100 ∉ delaysMs (new_events m (main_session env (k + 4) m).machine)
    ∧ (∃ rest, ctrlWrites (new_events m (main_session env (k + 4) m).machine)
          = 0x23 :: 0x14 :: rest ∧ ∀ v ∈ rest, v.testBit LED = false) := by
  have hs := main_session_failed env k m b0 b1 b2 b3 b4 b5 h0 h1 h2 hne h3 h4 h5 hne2
  have hn : new_events m (main_session env (k + 4) m).machine
      = tr_session_failed b0 b1 b2 b3 b4 b5 (k + 4) := by
    rw [hs]
    exact new_events_append _ _ _ rfl
  rw [hn, hs]
  refine ⟨?_, by decide, ?_, ?_, ?_, ?_, ?_, ?_, ?_, ?_, ?_⟩
  · simp only [Outcome.machine, tr_session_failed, tr_buz_cycles, tr_buz_cycle,
      List.append_assoc]
    rfl
  · rw [callsAmong_eq_calls, calls_session_failed]; rfl
  · rw [countCall_eq_calls, calls_session_failed]; rfl
  · rw [countCmd_eq_calls, calls_session_failed]; rfl
  · rw [countCmd_eq_calls, calls_session_failed]; rfl
  · rw [countCall_eq_calls, calls_session_failed]; rfl
  · rw [countCall_eq_calls, calls_session_failed]; rfl
  · rw [count_call_eq_calls, calls_session_failed]; rfl
  · rw [delaysMs_session_failed]; decide
  · rw [ctrlWrites_session_failed]
    refine ⟨(ctrlWrites (tr_session_failed 0 0 0 0 0 0 0)).drop 2
      ++ ctrlWrites (tr_buz_cycles 0x94 (k + 4)), rfl, ?_⟩
    intro v hv
    rw [List.mem_append] at hv
    rcases hv with h | h
    · revert v
      decide
    · rcases ctrlWrites_buz_cycles _ v h with h | h <;> subst h <;> decide

/-- C7 (amended) at a concrete input: the target `env_blank` from power-on. -/
theorem scenario_failed_witness :
    (env_blank.PINB power_on.nb = 0xFF ∧ env_blank.PINB (power_on.nb + 1) = 0xFF
      ∧ env_blank.PINB (power_on.nb + 2) = 0xFF
      ∧ ((0xFF, 0xFF, 0xFF) : Nat × Nat × Nat) ≠ (0x1E, 0x91, 0x0F)
      ∧ env_blank.PINB (power_on.nb + 3) = 0xFF ∧ env_blank.PINB (power_on.nb + 4) = 0xFF
      ∧ env_blank.PINB (power_on.nb + 5) = 0xFF)
    ∧ countCall .repair_signature
        (new_events power_on (main_session env_blank 4 power_on).machine) = 1
    ∧ countCmd 0x40 (new_events power_on (main_session env_blank 4 power_on).machine) = 0
    ∧ countCmd 0x80 (new_events power_on (main_session env_blank 4 power_on).machine) = 0 :=
  have h := scenario_failed env_blank 0 power_on 0xFF 0xFF 0xFF 0xFF 0xFF 0xFF rfl rfl rfl
    (by decide) rfl rfl rfl (by decide)
  ⟨⟨rfl, rfl, rfl, by decide, rfl, rfl, rfl⟩, h.2.2.2.1, h.2.2.2.2.1, h.2.2.2.2.2.1⟩


/-! ## Sessions cut short by a small fuel -/

theorem repair_signature_small (n : Nat) (hn : n < 4) (m : Machine) :
    (repair_signature n m).returned = false
    ∧ (repair_signature n m).machine.trace = m.trace ++ tr_repair_partial n
    ∧ (repair_signature n m).machine.state = m.state
    ∧ (repair_signature n m).machine.nb = m.nb := by
  interval_cases n <;>
    simp [repair_signature, for_u8_succ, for_u8_zero, send_command_eq, write_pulse_eq, out,
      emit, Outcome.returned, Outcome.machine, tr_repair_partial, tr_repair_step, SIG1, SIG2,
      SIG3]

theorem user_feedback_success_small (n : Nat) (hn : n < 4) (m : Machine)
    (hc : m.PORTD = 0x96) :
    (user_feedback n 1 m).returned = false
    ∧ (user_feedback n 1 m).machine.trace =
        m.trace ++ ([.call .user_feedback [1]] ++ tr_led_blinks 0x96 n)
    ∧ (user_feedback n 1 m).machine.state = m.state
    ∧ (user_feedback n 1 m).machine.nb = m.nb := by
  have hb : ∀ m : Machine, m.PORTD = 0x96 →
      led_blink m = { m with PORTD := 0x96, trace := m.trace ++ tr_led_blink 0x96 } := by
    intro m h
    rw [led_blink_eq m (by rw [h]; decide), h, and_150_254]
  interval_cases n <;>
    simp [user_feedback, for_u8_succ, for_u8_zero, emit, hb, hc, Outcome.returned,
      Outcome.machine, tr_led_blinks]


theorem machine_timeout (m : Machine) : (Outcome.timeout m).machine = m := rfl

theorem machine_done (m : Machine) : (Outcome.done m).machine = m := rfl

theorem andThen_not_returned (o : Outcome) (k : Machine → Outcome) (h : o.returned = false) :
    o.andThen k = .timeout o.machine := by
  cases o with
  | done m => simp [Outcome.returned] at h
  | timeout m => rfl

theorem main_session_cut_repair (env : Env) (n : Nat) (hn : n < 4) (m : Machine)
    (b0 b1 b2 : Nat)
    (h0 : env.PINB m.nb = b0) (h1 : env.PINB (m.nb + 1) = b1) (h2 : env.PINB (m.nb + 2) = b2)
    (hne : (b0, b1, b2) ≠ (0x1E, 0x91, 0x0F)) :
    (main_session env n m).returned = false
    ∧ (main_session env n m).machine.trace = m.trace ++ tr_session_cut_repair b0 b1 b2 n
    ∧ (main_session env n m).machine.state =
        { sig0 := b0, sig1 := b1, sig2 := b2, sig_valid := 0 } := by
  have hf := sig_check_false b0 b1 b2 hne
  have hm : read_signature env (enter_program_mode m) =
      { m with
        DDRB := 0xFF, PORTB := 0x0A, PORTC := 0x09, PORTD := 0x94,
        state := { sig0 := b0, sig1 := b1, sig2 := b2, sig_valid := 0 },
        nb := m.nb + 3,
        trace := m.trace ++ (tr_enter_program_mode ++ tr_read_signature b0 b1 b2) } := by
    rw [enter_program_mode_eq, read_signature_eq]
    simp [h0, h1, h2, hf]
  obtain ⟨r1, r2, r3, -⟩ := repair_signature_small n hn (read_signature env (enter_program_mode m))
  have hs : main_session env n m =
      .timeout (repair_signature n (read_signature env (enter_program_mode m))).machine := by
    have hv : (read_signature env (enter_program_mode m)).state.sig_valid = 0 := by rw [hm]
    simp only [main_session, hv, if_true]
    rw [andThen_not_returned _ _ r1]
    rfl
  rw [hs]
  refine ⟨rfl, ?_, ?_⟩
  · rw [machine_timeout, r2, hm]
    simp [tr_session_cut_repair]
  · rw [machine_timeout, r3, hm]

theorem main_session_cut_valid (env : Env) (n : Nat) (hn : n < 4) (m : Machine)
    (h0 : env.PINB m.nb = 0x1E) (h1 : env.PINB (m.nb + 1) = 0x91)
    (h2 : env.PINB (m.nb + 2) = 0x0F) :
    (main_session env n m).returned = false
    ∧ (main_session env n m).machine.trace = m.trace ++ tr_session_cut_valid n
    ∧ (main_session env n m).machine.state =
        { sig0 := 0x1E, sig1 := 0x91, sig2 := 0x0F, sig_valid := 1 } := by
  have hm : chip_erase (program_fuses (read_signature env (enter_program_mode m))) =
      { m with
        DDRB := 0xFF, PORTB := 0x80, PORTC := 0x15, PORTD := 0x96,
        state := { sig0 := 0x1E, sig1 := 0x91, sig2 := 0x0F, sig_valid := 1 },
        nb := m.nb + 3,
        trace := m.trace ++ (tr_enter_program_mode ++ tr_read_signature 0x1E 0x91 0x0F
          ++ tr_program_fuses ++ tr_chip_erase) } := by
    rw [enter_program_mode_eq, read_signature_eq, program_fuses_eq, chip_erase_eq]
    simp [h0, h1, h2, sig_check_true]
  have hv : (read_signature env (enter_program_mode m)).state.sig_valid = 1 := by
    rw [enter_program_mode_eq, read_signature_eq]
    simp [h0, h1, h2, sig_check_true]
  obtain ⟨r1, r2, r3, -⟩ := user_feedback_success_small n hn
    (chip_erase (program_fuses (read_signature env (enter_program_mode m)))) (by rw [hm])
  have hs : main_session env n m =
      .timeout (user_feedback n 1
        (chip_erase (program_fuses (read_signature env (enter_program_mode m))))).machine := by
    simp only [main_session, hv, if_false, one_ne_zero, ne_eq, not_false_eq_true, if_true,
      andThen_done]
    rw [andThen_not_returned _ _ r1]
  rw [hs]
  refine ⟨rfl, ?_, ?_⟩
  · rw [machine_timeout, r2, hm]
    simp [tr_session_cut_valid]
  · rw [machine_timeout, r3, hm]


/-! ## C2: the fuse/erase guard -/

theorem guard_run_append (g : Guard) (a b : List Event) :
    g.run (a ++ b) = (g.run a).run b := by
  simp [Guard.run, List.foldl_append]

theorem guard_read_signature (g : Guard) (b0 b1 b2 : Nat) :
    g.run (tr_read_signature b0 b1 b2) =
      { last := some [b0, b1, b2], cur := none, cmd := some 0x0A, ok := g.ok } := by
  cases g
  rfl

theorem guard_buz_cycles (g : Guard) (c n : Nat) : g.run (tr_buz_cycles c n) = g := by
  induction n with
  | zero => rfl
  | succ n ih => rw [tr_buz_cycles, guard_run_append, show g.run (tr_buz_cycle c) = g from rfl, ih]

theorem guard_session_valid : guard_ok tr_session_valid = true := by rfl

theorem guard_session_cut_valid (n : Nat) (hn : n < 4) :
    guard_ok (tr_session_cut_valid n) = true := by
  interval_cases n <;> rfl

theorem guard_session_cut_repair (b0 b1 b2 n : Nat) (hn : n < 4) :
    guard_ok (tr_session_cut_repair b0 b1 b2 n) = true := by
  simp only [guard_ok, tr_session_cut_repair, guard_run_append, guard_read_signature]
  interval_cases n <;> rfl

theorem guard_session_repaired (b0 b1 b2 : Nat) :
    guard_ok (tr_session_repaired b0 b1 b2) = true := by
  simp only [guard_ok, tr_session_repaired, guard_run_append, guard_read_signature]
  rfl

theorem guard_session_failed (b0 b1 b2 b3 b4 b5 n : Nat) :
    guard_ok (tr_session_failed b0 b1 b2 b3 b4 b5 n) = true := by
  simp only [guard_ok, tr_session_failed, guard_run_append, guard_read_signature,
    guard_buz_cycles]
  rfl

theorem calls_session_cut_repair (b0 b1 b2 n : Nat) :
    calls (tr_session_cut_repair b0 b1 b2 n) = calls (tr_session_cut_repair 0 0 0 n) := by
  simp only [tr_session_cut_repair, calls_append, calls_read_signature b0 b1 b2]


theorem scenario_count_fuse_opcode :
    countCmd 0x40 (new_events power_on (main_session env_valid 4 power_on).machine) = 2 := by
  have hs := main_session_valid env_valid 0 power_on rfl rfl rfl
  rw [show (0 + 4 : Nat) = 4 from rfl] at hs
  rw [hs]
  rfl

/-- C2: for every target response, every fuel and every prior state, the events
of a session pass the fuse/erase monitor: `program_fuses`, `chip_erase`,
`send_command(0x40)`, `send_command(0x80)` and a write pulse following one of
these commands occur only when the most recent completed `read_signature` of
the session sampled exactly 0x1E, 0x91, 0x0F.  `repair_signature` is entered at
most once.  If a fuse or erase opcode or function occurs at all, then either the
first read was valid (one read, no repair) or the first was invalid and the
second valid (one repair, two reads), and `state.sig` is the expected
signature. -/
theorem fuse_erase_guard (env : Env) (fuel : Nat) (m : Machine) :
    (main_session env fuel m).machine.trace =
        m.trace ++ new_events m (main_session env fuel m).machine
    ∧ guard_ok (new_events m (main_session env fuel m).machine) = true
    ∧ countCall .repair_signature (new_events m (main_session env fuel m).machine) ≤ 1
    ∧ ((countCmd 0x40 (new_events m (main_session env fuel m).machine) ≠ 0
          ∨ countCmd 0x80 (new_events m (main_session env fuel m).machine) ≠ 0
          ∨ countCall .program_fuses (new_events m (main_session env fuel m).machine) ≠ 0
          ∨ countCall .chip_erase (new_events m (main_session env fuel m).machine) ≠ 0) →
        (main_session env fuel m).machine.state.sig = [0x1E, 0x91, 0x0F]
        ∧ (((env.PINB m.nb, env.PINB (m.nb + 1), env.PINB (m.nb + 2)) = (0x1E, 0x91, 0x0F)
              ∧ countCall .repair_signature
                  (new_events m (main_session env fuel m).machine) = 0
              ∧ countCall .read_signature
                  (new_events m (main_session env fuel m).machine) = 1)
            ∨ ((env.PINB m.nb, env.PINB (m.nb + 1), env.PINB (m.nb + 2)) ≠ (0x1E, 0x91, 0x0F)
              ∧ (env.PINB (m.nb + 3), env.PINB (m.nb + 4), env.PINB (m.nb + 5))
                  = (0x1E, 0x91, 0x0F)
              ∧ countCall .repair_signature
                  (new_events m (main_session env fuel m).machine) = 1
              ∧ countCall .read_signature
                  (new_events m (main_session env fuel m).machine) = 2))) := by
  by_cases hv1 : (env.PINB m.nb, env.PINB (m.nb + 1), env.PINB (m.nb + 2)) = (0x1E, 0x91, 0x0F)
  · have h0 : env.PINB m.nb = 0x1E := (Prod.mk.inj hv1).1
    have h1 : env.PINB (m.nb + 1) = 0x91 := (Prod.mk.inj (Prod.mk.inj hv1).2).1
    have h2 : env.PINB (m.nb + 2) = 0x0F := (Prod.mk.inj (Prod.mk.inj hv1).2).2
    rcases Nat.lt_or_ge fuel 4 with hlt | hge
    · obtain ⟨-, t, s⟩ := main_session_cut_valid env fuel hlt m h0 h1 h2
      have hn := new_events_append m _ _ t
      rw [hn, s]
      refine ⟨t, guard_session_cut_valid fuel hlt, ?_, fun _ => ⟨rfl, Or.inl ⟨hv1, ?_, ?_⟩⟩⟩ <;>
        interval_cases fuel <;> decide
    · obtain ⟨k, rfl⟩ := Nat.exists_eq_add_of_le' hge
      have hs := main_session_valid env k m h0 h1 h2
      have hn : new_events m (main_session env (k + 4) m).machine = tr_session_valid := by
        rw [hs]
        exact new_events_append _ _ _ rfl
      rw [hn, hs]
      exact ⟨rfl, guard_session_valid, by decide, fun _ => ⟨rfl, Or.inl ⟨hv1, by decide, by decide⟩⟩⟩
  · rcases Nat.lt_or_ge fuel 4 with hlt | hge
    · obtain ⟨-, t, -⟩ := main_session_cut_repair env fuel hlt m _ _ _ rfl rfl rfl hv1
      have hn := new_events_append m _ _ t
      rw [hn]
      refine ⟨t, guard_session_cut_repair _ _ _ fuel hlt, ?_, ?_⟩
      · rw [countCall_eq_calls, calls_session_cut_repair]
        interval_cases fuel <;> decide
      · intro h
        exfalso
        simp only [countCmd_eq_calls, countCall_eq_calls, calls_session_cut_repair] at h
        revert h
        interval_cases fuel <;> decide
    · obtain ⟨k, rfl⟩ := Nat.exists_eq_add_of_le' hge
      by_cases hv2 : (env.PINB (m.nb + 3), env.PINB (m.nb + 4), env.PINB (m.nb + 5))
          = (0x1E, 0x91, 0x0F)
      · have h3 : env.PINB (m.nb + 3) = 0x1E := (Prod.mk.inj hv2).1
        have h4 : env.PINB (m.nb + 4) = 0x91 := (Prod.mk.inj (Prod.mk.inj hv2).2).1
        have h5 : env.PINB (m.nb + 5) = 0x0F := (Prod.mk.inj (Prod.mk.inj hv2).2).2
        have hs := main_session_repaired env k m _ _ _ rfl rfl rfl hv1 h3 h4 h5
        have hn : new_events m (main_session env (k + 4) m).machine
            = tr_session_repaired (env.PINB m.nb) (env.PINB (m.nb + 1)) (env.PINB (m.nb + 2)) := by
          rw [hs]
          exact new_events_append _ _ _ rfl
        rw [hn, hs]
        refine ⟨rfl, guard_session_repaired _ _ _, ?_, fun _ => ⟨rfl, Or.inr ⟨hv1, hv2, ?_, ?_⟩⟩⟩
          <;> rw [countCall_eq_calls, calls_session_repaired] <;> decide
      · have hs := main_session_failed env k m _ _ _ _ _ _ rfl rfl rfl hv1 rfl rfl rfl hv2
        have hn : new_events m (main_session env (k + 4) m).machine
            = tr_session_failed (env.PINB m.nb) (env.PINB (m.nb + 1)) (env.PINB (m.nb + 2))
                (env.PINB (m.nb + 3)) (env.PINB (m.nb + 4)) (env.PINB (m.nb + 5)) (k + 4) := by
          rw [hs]
          exact new_events_append _ _ _ rfl
        rw [hn, hs]
        refine ⟨rfl, guard_session_failed _ _ _ _ _ _ _, ?_, ?_⟩
        · rw [countCall_eq_calls, calls_session_failed]
          decide
        · intro h
          exfalso
          simp only [countCmd_eq_calls, countCall_eq_calls, calls_session_failed] at h
          revert h
          decide


/-- C2 at a concrete input: with the target `env_valid` the fuse opcode is
sent, and the guard's conclusion holds there. -/
theorem fuse_erase_guard_witness :
    countCmd 0x40 (new_events power_on (main_session env_valid 4 power_on).machine) ≠ 0
    ∧ guard_ok (new_events power_on (main_session env_valid 4 power_on).machine) = true
    ∧ (main_session env_valid 4 power_on).machine.state.sig = [0x1E, 0x91, 0x0F] :=
  have h := fuse_erase_guard env_valid 4 power_on
  have hc : countCmd 0x40 (new_events power_on (main_session env_valid 4 power_on).machine) ≠ 0 := by
    rw [(scenario_count_fuse_opcode)]
    decide
  ⟨hc, h.2.1, (h.2.2.2 (Or.inl hc)).1⟩

/-! ## C3: reaching `exit_program_mode` -/

/-- C3, as the code runs: a session whose two signature reads both fail never
reaches `exit_program_mode`.  With the target `env_blank` from power-on, for
every fuel the run has not returned and its trace contains no entry into
`exit_program_mode`; from fuel 4 on it is inside `user_feedback(0)`, whose inner
loop never ends. -/
theorem session_failed_never_exits (fuel : Nat) :
    (main_session env_blank fuel power_on).returned = false
    ∧ countCall .exit_program_mode (main_session env_blank fuel power_on).machine.trace = 0
    ∧ callsAmong [.enter_program_mode, .read_signature, .repair_signature, .program_fuses,
          .chip_erase, .user_feedback, .exit_program_mode]
          (main_session env_blank (fuel + 4) power_on).machine.trace =
        [(.enter_program_mode, []), (.read_signature, []), (.repair_signature, []),
         (.read_signature, []), (.user_feedback, [0])] := by
  have hs : ∀ k, main_session env_blank (k + 4) power_on =
      .timeout { power_on with
        DDRB := 0xFF, PORTB := 0x0A, PORTC := 0x09, PORTD := 0x94,
        state := { sig0 := 0xFF, sig1 := 0xFF, sig2 := 0xFF, sig_valid := 0 },
        nb := power_on.nb + 6,
        trace := power_on.trace ++ tr_session_failed 0xFF 0xFF 0xFF 0xFF 0xFF 0xFF (k + 4) } :=
    fun k => main_session_failed env_blank k power_on 0xFF 0xFF 0xFF 0xFF 0xFF 0xFF
      rfl rfl rfl (by decide) rfl rfl rfl (by decide)
  refine ⟨?_, ?_, ?_⟩
  · rcases Nat.lt_or_ge fuel 4 with hlt | hge
    · exact (main_session_cut_repair env_blank fuel hlt power_on 0xFF 0xFF 0xFF
        rfl rfl rfl (by decide)).1
    · obtain ⟨k, rfl⟩ := Nat.exists_eq_add_of_le' hge
      rw [hs]
      rfl
  · rcases Nat.lt_or_ge fuel 4 with hlt | hge
    · obtain ⟨-, t, -⟩ := main_session_cut_repair env_blank fuel hlt power_on 0xFF 0xFF 0xFF
        rfl rfl rfl (by decide)
      rw [t, countCall_eq_calls, show power_on.trace = [] from rfl, List.nil_append,
        calls_session_cut_repair]
      interval_cases fuel <;> decide
    · obtain ⟨k, rfl⟩ := Nat.exists_eq_add_of_le' hge
      rw [hs, machine_timeout, show power_on.trace = [] from rfl, List.nil_append,
        countCall_eq_calls, calls_session_failed]
      decide
  · rw [hs, machine_timeout, show power_on.trace = [] from rfl, List.nil_append,
      callsAmong_eq_calls, calls_session_failed]
    decide


/-! ## C11: `program_fuses` -/

/-- C11: for every prior state `program_fuses` performs exactly
`send_command(0x40)`, `DATA_PORT = 0x64`, `PORTC = 0x17`, one write pulse, then
`send_command(0x40)`, `DATA_PORT = 0xDF`, `PORTC = 0x15`, one write pulse.  The
high fuse is committed first, the data bus holds 0x64 at the first write pulse
and 0xDF at the second whatever the session state and the samples taken
before, and the two status patterns differ. -/
theorem program_fuses_contract (m : Machine) :
    (program_fuses m).trace =
        m.trace ++
          ([.call .program_fuses []]
            ++ tr_send_command 0x40 ++ [.write .PORTB 0x64, .write .PORTC 0x17]
            ++ tr_write_pulse
            ++ tr_send_command 0x40 ++ [.write .PORTB 0xDF, .write .PORTC 0x15]
            ++ tr_write_pulse
            ++ [.ret .program_fuses])
    ∧ callsAmong [.send_command, .generate_write_pulse, .read_byte]
          (new_events m (program_fuses m)) =
        [(.send_command, [0x40]), (.generate_write_pulse, []),
         (.send_command, [0x40]), (.generate_write_pulse, [])]
    ∧ dataAtWritePulses m.PORTB (new_events m (program_fuses m)) = [HFUSE, LFUSE]
    ∧ HFUSE = 0x64 ∧ LFUSE = 0xDF
    ∧ (0x17 : Nat) ≠ 0x15
    ∧ samples (new_events m (program_fuses m)) = []
    ∧ (program_fuses m).state = m.state
    ∧ (program_fuses m).PORTB = LFUSE := by
  have hn : new_events m (program_fuses m) = tr_program_fuses := by
    rw [program_fuses_eq]
    exact new_events_append _ _ _ rfl
  rw [hn, program_fuses_eq]
  exact ⟨rfl, rfl, rfl, rfl, rfl, by decide, rfl, rfl, rfl⟩

/-! ## C12: `send_command` -/

/-- C12: for every byte cmd and every prior state, `send_command(cmd)` stores
`PORTC = 0x19`, then `CTRL_PORT = 0x96`, then `DATA_PORT = cmd`, then issues one
clock pulse (XTAL1 set, 150 ms, XTAL1 cleared, 150 ms).  No store to `DATA_PORT`
happens during the pulse, and on return `PORTC = 0x19`, `CTRL_PORT = 0x96`,
`DATA_PORT = cmd`, with `DDRB` and the session state unchanged. -/
theorem send_command_contract (cmd : Nat) (m : Machine) (hcmd : cmd < 256) :
    (send_command cmd m).trace =
        m.trace ++
          [.call .send_command [cmd], .write .PORTC 0x19, .write .PORTD 0x96,
           .write .PORTB cmd,
           .call .generate_xtal_pulse [], .write .PORTD (0x96 ||| 1 <<< XTAL1), .delay_ms 150,
           .write .PORTD (0x96 &&& compl (1 <<< XTAL1)), .delay_ms 150,
           .ret .generate_xtal_pulse, .ret .send_command]
    ∧ (0x96 ||| 1 <<< XTAL1 = 0x9E ∧ 0x96 &&& compl (1 <<< XTAL1) = 0x96)
    ∧ countCall .generate_xtal_pulse (new_events m (send_command cmd m)) = 1
    ∧ (send_command cmd m).PORTC = 0x19
    ∧ (send_command cmd m).PORTD = 0x96
    ∧ (send_command cmd m).PORTB = cmd
    ∧ (send_command cmd m).DDRB = m.DDRB
    ∧ (send_command cmd m).state = m.state := by
  have hn : new_events m (send_command cmd m) = tr_send_command cmd := by
    rw [send_command_eq, Nat.mod_eq_of_lt hcmd]
    exact new_events_append _ _ _ rfl
  rw [hn, send_command_eq, Nat.mod_eq_of_lt hcmd]
  exact ⟨rfl, by decide, rfl, rfl, rfl, rfl, rfl, rfl⟩

/-- C12 at a concrete input: the erase opcode sent from power-on. -/
theorem send_command_contract_witness :
    (0x80 : Nat) < 256
    ∧ (send_command 0x80 power_on).PORTB = 0x80
    ∧ (send_command 0x80 power_on).PORTD = 0x96
    ∧ (send_command 0x80 power_on).PORTC = 0x19 :=
  have h := send_command_contract 0x80 power_on (by decide)
  ⟨by decide, h.2.2.2.2.2.1, h.2.2.2.2.1, h.2.2.2.1⟩

/-! ## C14: `enter_program_mode` -/

/-- C14: for every prior state `enter_program_mode` performs exactly
`PORTC = 0x19`, `CTRL_PORT = 0x23`, wait 1250 ms, `CTRL_PORT = 0x14`, wait 150 ms,
`CTRL_PORT = 0x94`, wait 150 ms, and nothing else.  The stabilisation wait is
strictly longer than the pulse wait and comes before the second and third
store to `CTRL_PORT`. -/
theorem enter_program_mode_contract (m : Machine) :
    (enter_program_mode m).trace =
        m.trace ++
          [.call .enter_program_mode [], .write .PORTC 0x19, .write .PORTD 0x23,
           .delay_ms STABLE_DELAY, .write .PORTD 0x14, .delay_ms PULSE_DELAY,
           .write .PORTD 0x94, .delay_ms PULSE_DELAY, .ret .enter_program_mode]
    ∧ STABLE_DELAY = 1250 ∧ PULSE_DELAY = 150 ∧ PULSE_DELAY < STABLE_DELAY
    ∧ ctrlWrites (new_events m (enter_program_mode m)) = [0x23, 0x14, 0x94]
    ∧ delaysMs (new_events m (enter_program_mode m)) = [1250, 150, 150]
    ∧ (enter_program_mode m).PORTC = 0x19
    ∧ (enter_program_mode m).PORTD = 0x94
    ∧ (enter_program_mode m).PORTB = m.PORTB
    ∧ (enter_program_mode m).DDRB = m.DDRB
    ∧ (enter_program_mode m).state = m.state := by
  have hn : new_events m (enter_program_mode m) = tr_enter_program_mode := by
    rw [enter_program_mode_eq]
    exact new_events_append _ _ _ rfl
  rw [hn, enter_program_mode_eq]
  exact ⟨rfl, rfl, rfl, by decide, rfl, rfl, rfl, rfl, rfl, rfl, rfl⟩


/-! ## C13: `exit_program_mode` -/

theorem init_ports_eq (m : Machine) :
    init_ports m =
      { m with DDRB := 0xFF, PORTB := 0x00, DDRD := 0xFF, PORTD := 0x20, DDRC := 0xEE,
               PORTC := 0x11,
               trace := m.trace ++
                 [.call .init_ports [], .write .DDRB 0xFF, .write .PORTB 0x00, .write .DDRD 0xFF,
                  .write .PORTD 0x20, .write .DDRC 0xEE, .write .PORTC 0x11,
                  .ret .init_ports] } := by
  simp [init_ports, out, emit, VCC]

/-- C13, refuted as stated: after `exit_program_mode` the control port does not
hold the value `init_ports` establishes.  `init_ports` leaves `CTRL_PORT = 0x20`,
`exit_program_mode` leaves `CTRL_PORT = 0x23`. -/
theorem exit_program_mode_control_differs :
    (init_ports power_on).PORTD = 0x20
    ∧ (exit_program_mode (init_ports power_on)).PORTD = 0x23
    ∧ (exit_program_mode (init_ports power_on)).PORTD ≠ (init_ports power_on).PORTD := by
  rw [exit_program_mode_eq, init_ports_eq]
  exact ⟨rfl, rfl, by decide⟩

/-- C13, amended: for every prior state, after `exit_program_mode` the status
port holds 0x11 and the data port 0x00, the values `init_ports` establishes, and
the control port holds 0x23, the pre-reset pattern of `enter_program_mode`.
That pattern agrees with the 0x20 of `init_ports` on the power bit (VCC set:
off), the reset bit (RESET12V clear) and the OE, XTAL1, WR and BS2 bits; it
differs in the LED and BUZ bits, which it sets. -/
theorem exit_program_mode_contract (m m0 : Machine) :
    (exit_program_mode m).trace =
        m.trace ++
          [.call .exit_program_mode [], .write .PORTC 0x11, .write .PORTD 0x23,
           .write .PORTB 0x00, .ret .exit_program_mode]
    ∧ (exit_program_mode m).PORTC = 0x11
    ∧ (exit_program_mode m).PORTC = (init_ports m0).PORTC
    ∧ (exit_program_mode m).PORTB = 0x00
    ∧ (exit_program_mode m).PORTB = (init_ports m0).PORTB
    ∧ (exit_program_mode m).PORTD = 0x23
    ∧ (init_ports m0).PORTD = 0x20
    ∧ (∀ b, b ≠ LED → b ≠ BUZ →
        Nat.testBit (exit_program_mode m).PORTD b = Nat.testBit (init_ports m0).PORTD b)
    ∧ Nat.testBit (exit_program_mode m).PORTD VCC = true
    ∧ Nat.testBit (exit_program_mode m).PORTD RESET12V = false
    ∧ Nat.testBit (exit_program_mode m).PORTD LED = true
    ∧ Nat.testBit (exit_program_mode m).PORTD BUZ = true
    ∧ Nat.testBit (init_ports m0).PORTD LED = false
    ∧ Nat.testBit (init_ports m0).PORTD BUZ = false
    ∧ (exit_program_mode m).DDRB = m.DDRB
    ∧ (exit_program_mode m).state = m.state := by
  rw [exit_program_mode_eq, init_ports_eq]
  have t1 : Nat.testBit 0x23 VCC = true := by decide
  have t2 : Nat.testBit 0x23 RESET12V = false := by decide
  have t3 : Nat.testBit 0x23 LED = true := by decide
  have t4 : Nat.testBit 0x23 BUZ = true := by decide
  have t5 : Nat.testBit 0x20 LED = false := by decide
  have t6 : Nat.testBit 0x20 BUZ = false := by decide
  refine ⟨rfl, rfl, rfl, rfl, rfl, rfl, rfl, ?_, t1, t2, t3, t4, t5, t6, rfl, rfl⟩
  intro b hl hb
  show Nat.testBit 0x23 b = Nat.testBit 0x20 b
  have h3 : (0x23 : Nat) = 0x20 ||| 3 := by decide
  rw [h3, Nat.testBit_or]
  have : Nat.testBit 3 b = false := by
    rcases b with _ | _ | b
    · exact absurd rfl hl
    · exact absurd rfl hb
    · have : (3 : Nat) < 2 ^ (b + 2) := by
        have : 2 ^ 2 ≤ 2 ^ (b + 2) := Nat.pow_le_pow_right (by decide) (by omega)
        omega
      exact Nat.testBit_lt_two_pow this
  rw [this, Bool.or_false]

/-- C13 (amended) at a concrete input: leaving programming mode right after
`init_ports` from power-on keeps the power bit at its off level. -/
theorem exit_program_mode_contract_witness :
    (VCC ≠ LED ∧ VCC ≠ BUZ)
    ∧ Nat.testBit (exit_program_mode (init_ports power_on)).PORTD VCC
        = Nat.testBit (init_ports power_on).PORTD VCC
    ∧ (exit_program_mode (init_ports power_on)).PORTC = (init_ports power_on).PORTC :=
  have h := exit_program_mode_contract (init_ports power_on) power_on
  ⟨⟨by decide, by decide⟩, h.2.2.2.2.2.2.2.1 VCC (by decide) (by decide), h.2.2.1⟩

/-! ## C15: power before reset -/

/-- C15: in `enter_program_mode` the power bit (VCC, PD5) holds its off level,
the level `init_ports` writes, after the first store (0x23), and its on level
after the second store (0x14) and the third (0x94); the reset bit (RESET12V,
PD7) keeps the level `init_ports` writes through the first two stores and
changes only at the third, which comes one 150 ms wait after the store that
switched the power bit. -/
theorem power_before_reset (m m0 : Machine) :
    (enter_program_mode m).trace =
        m.trace ++
          [.call .enter_program_mode [], .write .PORTC 0x19, .write .PORTD 0x23,
           .delay_ms 1250, .write .PORTD 0x14, .delay_ms 150,
           .write .PORTD 0x94, .delay_ms 150, .ret .enter_program_mode]
    ∧ Nat.testBit (init_ports m0).PORTD VCC = true
    ∧ Nat.testBit (init_ports m0).PORTD RESET12V = false
    ∧ bitLevels VCC (new_events m (enter_program_mode m)) = [true, false, false]
    ∧ bitLevels RESET12V (new_events m (enter_program_mode m)) = [false, false, true]
    ∧ PULSE_DELAY = 150 := by
  have hn : new_events m (enter_program_mode m) = tr_enter_program_mode := by
    rw [enter_program_mode_eq]
    exact new_events_append _ _ _ rfl
  rw [hn, enter_program_mode_eq, init_ports_eq]
  have t1 : Nat.testBit 0x20 VCC = true := by decide
  have t4 : Nat.testBit 0x20 RESET12V = false := by decide
  have t2 : bitLevels VCC tr_enter_program_mode = [true, false, false] := by decide
  have t3 : bitLevels RESET12V tr_enter_program_mode = [false, false, true] := by decide
  exact ⟨rfl, t1, t4, t2, t3, rfl⟩


/-! ## C18: nothing is carried across sessions -/

theorem read_signature_forgets (env : Env) (m : Machine) (s : ProgrammerState) :
    read_signature env (enter_program_mode { m with state := s }) =
      read_signature env (enter_program_mode m) := by
  rw [enter_program_mode_eq, enter_program_mode_eq, read_signature_eq, read_signature_eq]

/-- C18: a session does not depend on the global `state` it starts with.  For
any two initial values s1 and s2 of `state`, the same registers, the same
samples and the same fuel, the two runs are equal: same outcome (returned or
not, so the same branches), same trace of stores and delays, same final
registers and same final `state`.  After every `read_signature`, `sig_valid` is
1 if the three bytes it sampled are 0x1E, 0x91, 0x0F and 0 otherwise, whatever
`state` held before. -/
theorem session_state_fresh (env : Env) (fuel : Nat) (m : Machine) (s1 s2 : ProgrammerState) :
    main_session env fuel { m with state := s1 } = main_session env fuel { m with state := s2 }
    ∧ (main_session env fuel { m with state := s1 }).machine.trace
        = (main_session env fuel { m with state := s2 }).machine.trace
    ∧ (main_session env fuel { m with state := s1 }).machine.state
        = (main_session env fuel { m with state := s2 }).machine.state
    ∧ (main_session env fuel { m with state := s1 }).returned
        = (main_session env fuel { m with state := s2 }).returned
    ∧ (read_signature env { m with state := s1 }).state.sig_valid
        = (if (env.PINB m.nb, env.PINB (m.nb + 1), env.PINB (m.nb + 2)) = (0x1E, 0x91, 0x0F)
            then 1 else 0)
    ∧ (read_signature env { m with state := s1 }).state
        = (read_signature env { m with state := s2 }).state := by
  have h : main_session env fuel { m with state := s1 }
      = main_session env fuel { m with state := s2 } := by
    simp only [main_session, read_signature_forgets]
  refine ⟨h, by rw [h], by rw [h], by rw [h], ?_, ?_⟩
  · rw [read_signature_eq]
    by_cases hv : (env.PINB m.nb, env.PINB (m.nb + 1), env.PINB (m.nb + 2)) = (0x1E, 0x91, 0x0F)
    · have h0 : env.PINB m.nb = 0x1E := (Prod.mk.inj hv).1
      have h1 : env.PINB (m.nb + 1) = 0x91 := (Prod.mk.inj (Prod.mk.inj hv).2).1
      have h2 : env.PINB (m.nb + 2) = 0x0F := (Prod.mk.inj (Prod.mk.inj hv).2).2
      simp [h0, h1, h2, sig_check_true]
    · simp [sig_check_false _ _ _ hv, hv]
  · rw [read_signature_eq, read_signature_eq]


/-! ## The shape of every session -/

theorem main_session_shape (env : Env) (fuel : Nat) (m : Machine) :
    ∃ evs, (main_session env fuel m).machine.trace = m.trace ++ evs
      ∧ (((main_session env fuel m).returned = true ∧ SessionDone evs)
        ∨ ((main_session env fuel m).returned = false ∧ SessionCut evs)) := by
  by_cases hv1 : (env.PINB m.nb, env.PINB (m.nb + 1), env.PINB (m.nb + 2)) = (0x1E, 0x91, 0x0F)
  · have h0 : env.PINB m.nb = 0x1E := (Prod.mk.inj hv1).1
    have h1 : env.PINB (m.nb + 1) = 0x91 := (Prod.mk.inj (Prod.mk.inj hv1).2).1
    have h2 : env.PINB (m.nb + 2) = 0x0F := (Prod.mk.inj (Prod.mk.inj hv1).2).2
    rcases Nat.lt_or_ge fuel 4 with hlt | hge
    · obtain ⟨r, t, -⟩ := main_session_cut_valid env fuel hlt m h0 h1 h2
      exact ⟨_, t, Or.inr ⟨r, Or.inl ⟨fuel, hlt, rfl⟩⟩⟩
    · obtain ⟨k, rfl⟩ := Nat.exists_eq_add_of_le' hge
      rw [main_session_valid env k m h0 h1 h2]
      exact ⟨_, rfl, Or.inl ⟨rfl, Or.inl rfl⟩⟩
  · rcases Nat.lt_or_ge fuel 4 with hlt | hge
    · obtain ⟨r, t, -⟩ := main_session_cut_repair env fuel hlt m _ _ _ rfl rfl rfl hv1
      exact ⟨_, t, Or.inr ⟨r, Or.inr (Or.inl ⟨_, _, _, fuel, hlt, rfl⟩)⟩⟩
    · obtain ⟨k, rfl⟩ := Nat.exists_eq_add_of_le' hge
      by_cases hv2 : (env.PINB (m.nb + 3), env.PINB (m.nb + 4), env.PINB (m.nb + 5))
          = (0x1E, 0x91, 0x0F)
      · have h3 : env.PINB (m.nb + 3) = 0x1E := (Prod.mk.inj hv2).1
        have h4 : env.PINB (m.nb + 4) = 0x91 := (Prod.mk.inj (Prod.mk.inj hv2).2).1
        have h5 : env.PINB (m.nb + 5) = 0x0F := (Prod.mk.inj (Prod.mk.inj hv2).2).2
        rw [main_session_repaired env k m _ _ _ rfl rfl rfl hv1 h3 h4 h5]
        exact ⟨_, rfl, Or.inl ⟨rfl, Or.inr ⟨_, _, _, rfl⟩⟩⟩
      · rw [main_session_failed env k m _ _ _ _ _ _ rfl rfl rfl hv1 rfl rfl rfl hv2]
        exact ⟨_, rfl, Or.inr ⟨rfl, Or.inr (Or.inr ⟨_, _, _, _, _, _, _, rfl⟩)⟩⟩

theorem calls_session_cut_valid (n : Nat) (hn : n < 4) :
    calls (tr_session_cut_valid n) = calls (tr_session_cut_valid 0) := by
  interval_cases n <;> rfl

/-- Every session enters `enter_program_mode` exactly once, as its first
step. -/
theorem session_enters_once (evs : List Event) (h : SessionDone evs ∨ SessionCut evs) :
    countCall .enter_program_mode evs = 1
    ∧ ∃ rest, evs = tr_enter_program_mode ++ rest := by
  rcases h with (h | ⟨b0, b1, b2, h⟩) | (⟨n, hn, h⟩ | ⟨b0, b1, b2, n, hn, h⟩
    | ⟨b0, b1, b2, b3, b4, b5, n, h⟩) <;> subst h
  · exact ⟨by rfl, _, by simp only [tr_session_valid, List.append_assoc]; rfl⟩
  · refine ⟨?_, _, by simp only [tr_session_repaired, List.append_assoc]; rfl⟩
    rw [countCall_eq_calls, calls_session_repaired]; rfl
  · refine ⟨?_, _, by simp only [tr_session_cut_valid, List.append_assoc]; rfl⟩
    rw [countCall_eq_calls, calls_session_cut_valid n hn]; rfl
  · refine ⟨?_, _, by simp only [tr_session_cut_repair, List.append_assoc]; rfl⟩
    rw [countCall_eq_calls, calls_session_cut_repair]
    interval_cases n <;> rfl
  · refine ⟨?_, _, by simp only [tr_session_failed, List.append_assoc]; rfl⟩
    rw [countCall_eq_calls, calls_session_failed]; rfl


/-! ## C17: trigger gating -/

theorem PINC_lt (env : Env) (k : Nat) : env.PINC k < 256 :=
  Nat.mod_lt _ (by decide)

theorem button_bit : ∀ p < 256, (p &&& (1 <<< BUTTON) = 0 ↔ p.testBit BUTTON = false) := by
  decide

theorem outcome_of_returned (o : Outcome) (h : o.returned = true) : o = .done o.machine := by
  cases o with
  | done m => rfl
  | timeout m => simp [Outcome.returned] at h

theorem outcome_of_not_returned (o : Outcome) (h : o.returned = false) :
    o = .timeout o.machine := by
  cases o with
  | done m => simp [Outcome.returned] at h
  | timeout m => rfl

theorem main_loop_body_idle (env : Env) (fuel : Nat) (m : Machine)
    (h : (env.PINC m.nc).testBit BUTTON = true) :
    main_loop_body env fuel m =
      .done { m with nc := m.nc + 1,
                     trace := m.trace ++ [.sample_pinc (env.PINC m.nc), .delay_ms 1250] } := by
  have hb : ¬ (env.PINC m.nc &&& (1 <<< BUTTON) = 0) := by
    rw [button_bit _ (PINC_lt env _), h]
    decide
  simp [main_loop_body, in_PINC, hb, _delay_ms, emit, STABLE_DELAY]

theorem main_loop_body_pressed (env : Env) (fuel : Nat) (m : Machine)
    (h : (env.PINC m.nc).testBit BUTTON = false) :
    main_loop_body env fuel m =
      (main_session env fuel
        { m with nc := m.nc + 1, trace := m.trace ++ [.sample_pinc (env.PINC m.nc)] }).andThen
        (fun m2 => .done (_delay_ms STABLE_DELAY m2)) := by
  have hb : env.PINC m.nc &&& (1 <<< BUTTON) = 0 := (button_bit _ (PINC_lt env _)).mpr h
  simp [main_loop_body, in_PINC, hb]

/-- The events of one loop iteration with the button pressed: the poll, a
session, and the closing wait if the session returned. -/
theorem main_loop_body_pressed_events (env : Env) (fuel : Nat) (m : Machine)
    (h : (env.PINC m.nc).testBit BUTTON = false) :
    ∃ evs,
      ((main_loop_body env fuel m).returned = true ∧ SessionDone evs
        ∧ (main_loop_body env fuel m).machine.trace =
            m.trace ++ ([.sample_pinc (env.PINC m.nc)] ++ evs ++ [.delay_ms 1250]))
      ∨ ((main_loop_body env fuel m).returned = false ∧ SessionCut evs
        ∧ (main_loop_body env fuel m).machine.trace =
            m.trace ++ ([.sample_pinc (env.PINC m.nc)] ++ evs)) := by
  obtain ⟨evs, t, hs⟩ := main_session_shape env fuel
    { m with nc := m.nc + 1, trace := m.trace ++ [.sample_pinc (env.PINC m.nc)] }
  refine ⟨evs, ?_⟩
  rw [main_loop_body_pressed env fuel m h]
  rcases hs with ⟨r, d⟩ | ⟨r, c⟩
  · left
    rw [outcome_of_returned _ r]
    refine ⟨rfl, d, ?_⟩
    simp only [andThen_done, machine_done, _delay_ms, emit, STABLE_DELAY]
    rw [t]
    simp
  · right
    rw [outcome_of_not_returned _ r]
    refine ⟨rfl, c, ?_⟩
    simp only [andThen_timeout, machine_timeout]
    rw [t]
    simp

theorem countCall_append (f : Fn) (a b : List Event) :
    countCall f (a ++ b) = countCall f a + countCall f b := by
  simp [countCall, List.countP_append]

theorem session_done_ends (evs : List Event) (h : SessionDone evs) :
    ∃ pre, evs = pre ++ [.ret .exit_program_mode] := by
  rcases h with h | ⟨b0, b1, b2, h⟩ <;> subst h
  · exact ⟨tr_session_valid.dropLast, by decide⟩
  · refine ⟨tr_enter_program_mode ++ tr_read_signature b0 b1 b2 ++ tr_repair_signature
      ++ tr_read_signature 0x1E 0x91 0x0F ++ tr_program_fuses ++ tr_chip_erase
      ++ tr_success 1 0x96 ++ tr_exit_program_mode.dropLast, ?_⟩
    simp only [tr_session_repaired, List.append_assoc]
    rfl

/-- C17: for every byte p sampled from `PINC` at the poll, one iteration of the
loop of `main` runs a session, starting with `enter_program_mode`, exactly when
bit 4 of p (BUTTON) is 0, whatever the other bits.  When bit 4 is 1 the
iteration stores to no register and leaves the session state alone.  An
iteration that returns ends with one 1250 ms wait, which follows the poll or
the return of `exit_program_mode`. -/
theorem trigger_gating (env : Env) (fuel : Nat) (m : Machine) (p : Nat)
    (hp : env.PINC m.nc = p) :
    (p.testBit BUTTON = false →
      main_loop_body env fuel m =
          (main_session env fuel
            { m with nc := m.nc + 1, trace := m.trace ++ [.sample_pinc p] }).andThen
            (fun m2 => .done (_delay_ms STABLE_DELAY m2))
      ∧ countCall .enter_program_mode (new_events m (main_loop_body env fuel m).machine) = 1
      ∧ ∃ rest, new_events m (main_loop_body env fuel m).machine
          = [.sample_pinc p] ++ tr_enter_program_mode ++ rest)
    ∧ (p.testBit BUTTON = true →
      main_loop_body env fuel m =
          .done { m with nc := m.nc + 1,
                         trace := m.trace ++ [.sample_pinc p, .delay_ms 1250] }
      ∧ new_events m (main_loop_body env fuel m).machine = [.sample_pinc p, .delay_ms 1250]
      ∧ countCall .enter_program_mode (new_events m (main_loop_body env fuel m).machine) = 0
      ∧ (main_loop_body env fuel m).machine.state = m.state
      ∧ (main_loop_body env fuel m).machine.PORTB = m.PORTB
      ∧ (main_loop_body env fuel m).machine.PORTC = m.PORTC
      ∧ (main_loop_body env fuel m).machine.PORTD = m.PORTD
      ∧ (main_loop_body env fuel m).machine.DDRB = m.DDRB
      ∧ (main_loop_body env fuel m).machine.DDRC = m.DDRC
      ∧ (main_loop_body env fuel m).machine.DDRD = m.DDRD)
    ∧ (∀ m2, main_loop_body env fuel m = .done m2 →
        ∃ pre e, m2.trace = pre ++ [e, .delay_ms STABLE_DELAY]
          ∧ (e = .sample_pinc p ∨ e = .ret .exit_program_mode)) := by
  subst hp
  refine ⟨fun h => ⟨main_loop_body_pressed env fuel m h, ?_⟩, fun h => ?_, fun m2 h2 => ?_⟩
  · obtain ⟨evs, ⟨-, d, t⟩ | ⟨-, c, t⟩⟩ := main_loop_body_pressed_events env fuel m h
    · obtain ⟨h1, rest, hr⟩ := session_enters_once evs (Or.inl d)
      rw [new_events_append _ _ _ t]
      refine ⟨?_, rest ++ [.delay_ms 1250], by rw [hr]; simp⟩
      rw [countCall_append, countCall_append, h1]
      rfl
    · obtain ⟨h1, rest, hr⟩ := session_enters_once evs (Or.inr c)
      rw [new_events_append _ _ _ t]
      refine ⟨?_, rest, by rw [hr]; simp⟩
      rw [countCall_append, h1]
      rfl
  · rw [main_loop_body_idle env fuel m h]
    exact ⟨rfl, new_events_append _ _ _ rfl, by rw [new_events_append _ _ _ rfl]; rfl,
      rfl, rfl, rfl, rfl, rfl, rfl, rfl⟩
  · cases hb : (env.PINC m.nc).testBit BUTTON with
    | true =>
      rw [main_loop_body_idle env fuel m hb] at h2
      injection h2 with h2
      subst h2
      exact ⟨m.trace, _, by simp [STABLE_DELAY], Or.inl rfl⟩
    | false =>
      obtain ⟨evs, ⟨-, d, t⟩ | ⟨r, -, -⟩⟩ := main_loop_body_pressed_events env fuel m hb
      · obtain ⟨pre, hpre⟩ := session_done_ends evs d
        rw [h2, machine_done] at t
        refine ⟨m.trace ++ [.sample_pinc (env.PINC m.nc)] ++ pre, _, ?_, Or.inr rfl⟩
        rw [t, hpre]
        simp [STABLE_DELAY]
      · rw [h2] at r
        simp [Outcome.returned] at r

/-- C17 at concrete inputs: from power-on, a poll sampling 0x00 (button pressed)
starts a session and a poll sampling 0x10 (button released) only waits. -/
theorem trigger_gating_witness :
    (env_valid.PINC power_on.nc = 0x00 ∧ Nat.testBit 0x00 BUTTON = false
      ∧ ({ pinb := fun _ => 0, pinc := fun _ => 0x10 } : Env).PINC power_on.nc = 0x10
      ∧ Nat.testBit 0x10 BUTTON = true)
    ∧ countCall .enter_program_mode
        (new_events power_on (main_loop_body env_valid 4 power_on).machine) = 1
    ∧ new_events power_on
        (main_loop_body { pinb := fun _ => 0, pinc := fun _ => 0x10 } 4 power_on).machine
        = [.sample_pinc 0x10, .delay_ms 1250] :=
  ⟨⟨rfl, by decide, rfl, by decide⟩,
    ((trigger_gating env_valid 4 power_on 0x00 rfl).1 (by decide)).2.1,
    ((trigger_gating { pinb := fun _ => 0, pinc := fun _ => 0x10 } 4 power_on 0x10 rfl).2.1
      (by decide)).2.1⟩


/-! ## C20: the two pulses -/

theorem xtal_bits : ∀ c < 256,
    (c ||| 1 <<< XTAL1) % 256 = (c ||| 1 <<< XTAL1)
    ∧ (((c ||| 1 <<< XTAL1) &&& compl (1 <<< XTAL1)) % 256 = c &&& 0xF7)
    ∧ (c ||| 1 <<< XTAL1) &&& 0xF7 = c &&& 0xF7
    ∧ (c &&& 0xF7) &&& 0xF7 = c &&& 0xF7
    ∧ Nat.testBit (c ||| 1 <<< XTAL1) XTAL1 = true
    ∧ Nat.testBit (c &&& 0xF7) XTAL1 = false := by
  decide

theorem wr_bits : ∀ c < 256,
    (c &&& compl (1 <<< WR)) % 256 = (c &&& 0xEF)
    ∧ ((c &&& 0xEF) ||| 1 <<< WR) % 256 = (c ||| 1 <<< WR)
    ∧ (c &&& 0xEF) &&& 0xEF = c &&& 0xEF
    ∧ (c ||| 1 <<< WR) &&& 0xEF = c &&& 0xEF
    ∧ Nat.testBit (c &&& 0xEF) WR = false
    ∧ Nat.testBit (c ||| 1 <<< WR) WR = true := by
  decide

theorem generate_xtal_pulse_eq (m : Machine) (h : m.PORTD < 256) :
    generate_xtal_pulse m =
      { m with PORTD := m.PORTD &&& 0xF7,
               trace := m.trace ++
                 [.call .generate_xtal_pulse [], .write .PORTD (m.PORTD ||| 1 <<< XTAL1),
                  .delay_ms 150, .write .PORTD (m.PORTD &&& 0xF7), .delay_ms 150,
                  .ret .generate_xtal_pulse] } := by
  obtain ⟨h1, h2, -⟩ := xtal_bits m.PORTD h
  simp only [generate_xtal_pulse, out, emit, _delay_ms, PULSE_DELAY, h1, h2, List.append_assoc,
    List.singleton_append, List.cons_append, List.nil_append]

theorem generate_write_pulse_eq (m : Machine) (h : m.PORTD < 256) :
    generate_write_pulse m =
      { m with PORTD := m.PORTD ||| 1 <<< WR,
               trace := m.trace ++
                 [.call .generate_write_pulse [], .write .PORTD (m.PORTD &&& 0xEF),
                  .delay_ms 150, .write .PORTD (m.PORTD ||| 1 <<< WR), .delay_ms 150,
                  .ret .generate_write_pulse] } := by
  obtain ⟨h1, h2, -⟩ := wr_bits m.PORTD h
  simp only [generate_write_pulse, out, emit, _delay_ms, PULSE_DELAY, h1, h2, List.append_assoc,
    List.singleton_append, List.cons_append, List.nil_append]

theorem pulse_run_append (s : PulseCheck) (a b : List Event) :
    s.run (a ++ b) = (s.run a).run b := by
  simp [PulseCheck.run, List.foldl_append]

theorem pulse_enter (s : PulseCheck) :
    s.run tr_enter_program_mode = { ctrl := 0x94, ok := s.ok } := by
  cases s
  rfl

theorem pulse_read_signature (s : PulseCheck) (b0 b1 b2 : Nat) :
    s.run (tr_read_signature b0 b1 b2) = { ctrl := 0x94, ok := s.ok } := by
  cases s with
  | mk c o => cases o <;> rfl

theorem pulse_buz_cycles (n : Nat) :
    ∀ s : PulseCheck, (s.run (tr_buz_cycles 0x94 n)).ok = s.ok := by
  induction n with
  | zero => intro s; rfl
  | succ n ih =>
    intro s
    rw [tr_buz_cycles, pulse_run_append, ih]
    cases s
    rfl

theorem pulses_session (c0 : Nat) (evs : List Event) (h : SessionDone evs ∨ SessionCut evs) :
    pulses_ok c0 evs = true := by
  rcases h with (h | ⟨b0, b1, b2, h⟩) | (⟨n, hn, h⟩ | ⟨b0, b1, b2, n, hn, h⟩
    | ⟨b0, b1, b2, b3, b4, b5, n, h⟩) <;> subst h
  · simp only [pulses_ok, tr_session_valid, pulse_run_append, pulse_enter, pulse_read_signature]
    rfl
  · simp only [pulses_ok, tr_session_repaired, pulse_run_append, pulse_enter,
      pulse_read_signature]
    rfl
  · simp only [pulses_ok, tr_session_cut_valid, pulse_run_append, pulse_enter,
      pulse_read_signature]
    interval_cases n <;> rfl
  · simp only [pulses_ok, tr_session_cut_repair, pulse_run_append, pulse_enter,
      pulse_read_signature]
    interval_cases n <;> rfl
  · simp only [pulses_ok, tr_session_failed, pulse_run_append, pulse_enter,
      pulse_read_signature, pulse_buz_cycles]
    rfl


/-- C20: on a control port holding any byte c, `generate_xtal_pulse` stores c
with XTAL1 (PD3) set, waits 150 ms, stores c with XTAL1 cleared, waits 150 ms,
and `generate_write_pulse` stores c with WR (PD4) cleared, waits 150 ms, stores c
with WR set, waits 150 ms; neither changes another bit.  In every session, for
every target response and fuel, each clock pulse and each write pulse is
entered with `CTRL_PORT = 0x96` (XTAL1 low, WR high) and left with
`CTRL_PORT = 0x96`. -/
theorem pulses_genuine (env : Env) (fuel : Nat) (m : Machine) (c : Nat) (hc : c < 256) :
    (generate_xtal_pulse { m with PORTD := c }).trace =
        m.trace ++
          [.call .generate_xtal_pulse [], .write .PORTD (c ||| 1 <<< XTAL1), .delay_ms 150,
           .write .PORTD (c &&& 0xF7), .delay_ms 150, .ret .generate_xtal_pulse]
    ∧ Nat.testBit (c ||| 1 <<< XTAL1) XTAL1 = true
    ∧ Nat.testBit (c &&& 0xF7) XTAL1 = false
    ∧ (c ||| 1 <<< XTAL1) &&& 0xF7 = c &&& 0xF7
    ∧ (generate_xtal_pulse { m with PORTD := c }).PORTD = c &&& 0xF7
    ∧ (generate_write_pulse { m with PORTD := c }).trace =
        m.trace ++
          [.call .generate_write_pulse [], .write .PORTD (c &&& 0xEF), .delay_ms 150,
           .write .PORTD (c ||| 1 <<< WR), .delay_ms 150, .ret .generate_write_pulse]
    ∧ Nat.testBit (c &&& 0xEF) WR = false
    ∧ Nat.testBit (c ||| 1 <<< WR) WR = true
    ∧ (c ||| 1 <<< WR) &&& 0xEF = c &&& 0xEF
    ∧ (generate_write_pulse { m with PORTD := c }).PORTD = c ||| 1 <<< WR
    ∧ pulses_ok m.PORTD (new_events m (main_session env fuel m).machine) = true
    ∧ (Nat.testBit 0x96 XTAL1 = false ∧ Nat.testBit 0x96 WR = true
        ∧ 0x96 &&& 0xF7 = 0x96 ∧ 0x96 ||| 1 <<< WR = 0x96) := by
  obtain ⟨-, -, x3, -, x5, x6⟩ := xtal_bits c hc
  obtain ⟨-, -, -, w4, w5, w6⟩ := wr_bits c hc
  obtain ⟨evs, t, hs⟩ := main_session_shape env fuel m
  have hs' : SessionDone evs ∨ SessionCut evs := by
    rcases hs with ⟨-, d⟩ | ⟨-, c⟩
    · exact Or.inl d
    · exact Or.inr c
  rw [new_events_append _ _ _ t, generate_xtal_pulse_eq _ hc, generate_write_pulse_eq _ hc]
  exact ⟨rfl, x5, x6, x3, rfl, rfl, w5, w6, w4, rfl, pulses_session _ _ hs', by decide⟩

/-- C20 at a concrete input: pulses on `CTRL_PORT = 0x96` and the session of
the target `env_valid` from power-on; a write pulse entered with another value
would be flagged. -/
theorem pulses_genuine_witness :
    (0x96 : Nat) < 256
    ∧ (generate_xtal_pulse { power_on with PORTD := 0x96 }).PORTD = 0x96
    ∧ (generate_write_pulse { power_on with PORTD := 0x96 }).PORTD = 0x96
    ∧ pulses_ok power_on.PORTD
        (new_events power_on (main_session env_valid 4 power_on).machine) = true
    ∧ pulses_ok 0x94 [.call .generate_write_pulse []] = false :=
  have h := pulses_genuine env_valid 4 power_on 0x96 (by decide)
  ⟨by decide, h.2.2.2.2.1, h.2.2.2.2.2.2.2.2.2.1, h.2.2.2.2.2.2.2.2.2.2.1, by decide⟩


/-! ## C19: the data bus is driven when it transmits -/

theorem bus_run_append (s : BusCheck) (a b : List Event) :
    s.run (a ++ b) = (s.run a).run b := by
  simp [BusCheck.run, List.foldl_append]

theorem bus_read_signature (b0 b1 b2 : Nat) :
    BusCheck.driven.run (tr_read_signature b0 b1 b2) = BusCheck.driven := by
  rfl

theorem bus_buz_cycles (c n : Nat) (s : BusCheck) : s.run (tr_buz_cycles c n) = s := by
  induction n with
  | zero => rfl
  | succ n ih => rw [tr_buz_cycles, bus_run_append, show s.run (tr_buz_cycle c) = s from rfl, ih]

theorem bus_session_done (evs : List Event) (h : SessionDone evs) :
    BusCheck.driven.run evs = BusCheck.driven := by
  rcases h with h | ⟨b0, b1, b2, h⟩ <;> subst h
  · rfl
  · simp only [tr_session_repaired, bus_run_append, bus_read_signature,
      show BusCheck.driven.run tr_enter_program_mode = BusCheck.driven from rfl]
    rfl

theorem bus_session_cut (evs : List Event) (h : SessionCut evs) :
    (BusCheck.driven.run evs).ok = true := by
  rcases h with ⟨n, hn, h⟩ | ⟨b0, b1, b2, n, hn, h⟩ | ⟨b0, b1, b2, b3, b4, b5, n, h⟩ <;> subst h
  · interval_cases n <;> rfl
  · simp only [tr_session_cut_repair, bus_run_append, bus_read_signature,
      show BusCheck.driven.run tr_enter_program_mode = BusCheck.driven from rfl]
    interval_cases n <;> rfl
  · simp only [tr_session_failed, bus_run_append, bus_read_signature, bus_buz_cycles,
      show BusCheck.driven.run tr_enter_program_mode = BusCheck.driven from rfl]
    rfl

/-- Whatever the number of loop iterations, the events of the loop of `main`
pass the bus monitor. -/
theorem bus_main_loop (env : Env) (fuel : Nat) (n : Nat) :
    ∀ m : Machine, ∃ evs, (main_loop env fuel n m).machine.trace = m.trace ++ evs
      ∧ (BusCheck.driven.run evs).ok = true := by
  induction n with
  | zero => intro m; exact ⟨[], by simp [main_loop, Outcome.machine], rfl⟩
  | succ n ih =>
    intro m
    rw [main_loop]
    cases hb : (env.PINC m.nc).testBit BUTTON with
    | true =>
      rw [main_loop_body_idle env fuel m hb, andThen_done]
      obtain ⟨evs, t, ok⟩ := ih
        { m with nc := m.nc + 1,
                 trace := m.trace ++ [.sample_pinc (env.PINC m.nc), .delay_ms 1250] }
      refine ⟨[.sample_pinc (env.PINC m.nc), .delay_ms 1250] ++ evs, ?_, ?_⟩
      · rw [t]
        simp
      · rw [bus_run_append]
        exact ok
    | false =>
      obtain ⟨evs, ⟨r, d, t⟩ | ⟨r, c, t⟩⟩ := main_loop_body_pressed_events env fuel m hb
      · rw [outcome_of_returned _ r, andThen_done]
        obtain ⟨evs2, t2, ok2⟩ := ih (main_loop_body env fuel m).machine
        refine ⟨[.sample_pinc (env.PINC m.nc)] ++ evs ++ [.delay_ms 1250] ++ evs2, ?_, ?_⟩
        · rw [t2, t]
          simp
        · rw [bus_run_append, bus_run_append, bus_run_append,
            show BusCheck.driven.run [.sample_pinc (env.PINC m.nc)] = BusCheck.driven from rfl,
            bus_session_done evs d]
          exact ok2
      · rw [outcome_of_not_returned _ r, andThen_timeout, machine_timeout]
        refine ⟨[.sample_pinc (env.PINC m.nc)] ++ evs, t, ?_⟩
        rw [bus_run_append,
          show BusCheck.driven.run [.sample_pinc (env.PINC m.nc)] = BusCheck.driven from rfl]
        exact bus_session_cut evs c

/-- C19: `init_ports` leaves `DDRB = 0xFF`, and from that state, for every
target response, every fuel and every number of loop iterations of `main`, the
events pass the bus monitor: every store to `DATA_PORT`, every `send_command`,
every clock pulse and every write pulse happens with `DDRB = 0xFF` and outside
`read_byte`; `DDRB` receives a value other than 0xFF only inside `read_byte`,
which returns with `DDRB = 0xFF`. -/
theorem data_bus_driven (env : Env) (fuel : Nat) (n : Nat) (m : Machine) :
    (init_ports m).DDRB = 0xFF
    ∧ main env fuel n m = main_loop env fuel n (init_ports m)
    ∧ (main env fuel n m).machine.trace
        = (init_ports m).trace ++ new_events (init_ports m) (main env fuel n m).machine
    ∧ bus_ok (new_events (init_ports m) (main env fuel n m).machine) = true
    ∧ (∀ env2 m2, bus_ok (tr_read_byte (env2.PINB m2.nb)) = true
        ∧ (read_byte env2 m2).2.DDRB = 0xFF)
    ∧ bus_ok [.write .DDRB 0x00, .write .PORTB 0x40] = false
    ∧ bus_ok [.call .read_byte [], .write .DDRB 0x00, .call .send_command [0x40]] = false := by
  obtain ⟨evs, t, ok⟩ := bus_main_loop env fuel n (init_ports m)
  have hm : main env fuel n m = main_loop env fuel n (init_ports m) := rfl
  rw [hm, new_events_append _ _ _ t]
  refine ⟨by rw [init_ports_eq], rfl, t, ok, fun env2 m2 => ⟨rfl, by rw [read_byte_eq]⟩,
    by decide, by decide⟩


/-! ## C16: repair, then read, against a simulated target -/

theorem target_run_append (keep : Bool) (t : Target) (a b : List Event) :
    Target.run keep t (a ++ b) = Target.run keep (Target.run keep t a) b := by
  simp [Target.run, List.foldl_append]

theorem target_repair_ending (a0 a1 a2 : Nat) :
    Target.run false (Target.holding a0 a1 a2) tr_repair_signature =
      { byte0 := 0x1E, byte1 := 0x91, byte2 := 0x0F, sel := none, bus := 0x5F,
        agreed := true } := by
  rfl

theorem target_repair_keeping (a0 a1 a2 : Nat) :
    Target.run true (Target.holding a0 a1 a2) tr_repair_signature =
      { byte0 := 0x1E, byte1 := 0x91, byte2 := 0x5F, sel := some 2, bus := 0x5F,
        agreed := true } := by
  rfl

theorem target_read_signature (keep : Bool) (c0 c1 c2 b0 b1 b2 bus : Nat) (s : Option Nat) :
    Target.run keep { byte0 := c0, byte1 := c1, byte2 := c2, sel := s, bus := bus, agreed := true }
        (tr_read_signature b0 b1 b2) =
      { byte0 := c0, byte1 := c1, byte2 := c2, sel := some 2, bus := 0x0A,
        agreed := ((true && b0 == c0) && b1 == c1) && b2 == c2 } := by
  rfl

theorem repair_then_read_eq (env : Env) (k : Nat) (m : Machine) :
    read_signature env (repair_signature (k + 4) m).machine =
      { m with
        DDRB := 0xFF, PORTB := 0x0A, PORTC := 0x09, PORTD := 0x94,
        state :=
          { sig0 := env.PINB m.nb, sig1 := env.PINB (m.nb + 1), sig2 := env.PINB (m.nb + 2),
            sig_valid :=
              (env.PINB m.nb == SIG1 && env.PINB (m.nb + 1) == SIG2
                && env.PINB (m.nb + 2) == SIG3).toNat },
        nb := m.nb + 3,
        trace :=
          m.trace ++ (tr_repair_signature ++ tr_read_signature (env.PINB m.nb)
            (env.PINB (m.nb + 1)) (env.PINB (m.nb + 2))) } := by
  rw [repair_signature_eq, machine_done, read_signature_eq]
  simp

/-- C16, refuted as stated: with a target that follows only the three stated
rules, the last write pulse of `repair_signature`, issued after
`send_command(0xAC)`, `send_command(0x5F)` with 0x5F on `DATA_PORT`, stores 0x5F
into byte 2, which is still selected.  Started with the bytes 0xFF, 0xFF, 0xFF
the target then shows 0x1E, 0x91, 0x5F, and `read_signature` ends with
`sig = [0x1E, 0x91, 0x5F]` and `sig_valid = 0`. -/
theorem round_trip_literal_target_clobbered :
    Target.run true (Target.holding 0xFF 0xFF 0xFF) tr_repair_signature =
        { byte0 := 0x1E, byte1 := 0x91, byte2 := 0x5F, sel := some 2, bus := 0x5F,
          agreed := true }
    ∧ (Target.run true (Target.holding 0xFF 0xFF 0xFF)
          (new_events power_on
            (read_signature env_clobbered (repair_signature 4 power_on).machine))).agreed = true
    ∧ (read_signature env_clobbered (repair_signature 4 power_on).machine).state.sig
        = [0x1E, 0x91, 0x5F]
    ∧ (read_signature env_clobbered (repair_signature 4 power_on).machine).state.sig_valid = 0
    ∧ (Target.run true (Target.holding 0xFF 0xFF 0xFF)
          (new_events power_on
            (read_signature env_valid (repair_signature 4 power_on).machine))).agreed = false := by
  have e1 := repair_then_read_eq env_clobbered 0 power_on
  have e2 := repair_then_read_eq env_valid 0 power_on
  rw [show (0 + 4 : Nat) = 4 from rfl] at e1 e2
  rw [e1, e2, new_events_append _ _ _ rfl, new_events_append _ _ _ rfl]
  simp only [target_run_append, target_repair_keeping, target_read_signature]
  exact ⟨trivial, rfl, rfl, rfl, rfl⟩

/-- C16, amended: take a simulated target holding three signature bytes in
which `send_command(0x08 + i)` selects byte i, any other command ends the
selection, a write pulse stores the byte on `DATA_PORT` into the selected byte if
there is one, and `read_byte` after `send_command(0x08 + i)` samples byte i.  For
every initial content a0, a1, a2, after `repair_signature` the target holds
0x1E, 0x91, 0x0F; the samples of the following `read_signature` agree with the
target exactly when they are 0x1E, 0x91, 0x0F, and then `state.sig` is
[0x1E, 0x91, 0x0F] and `state.sig_valid` is 1. -/
theorem repair_read_round_trip (env : Env) (k : Nat) (m : Machine) (a0 a1 a2 : Nat) :
    (repair_signature (k + 4) m).returned = true
    ∧ Target.run false (Target.holding a0 a1 a2)
          (new_events m (repair_signature (k + 4) m).machine) =
        { byte0 := 0x1E, byte1 := 0x91, byte2 := 0x0F, sel := none, bus := 0x5F,
          agreed := true }
    ∧ ((Target.run false (Target.holding a0 a1 a2)
          (new_events m
            (read_signature env (repair_signature (k + 4) m).machine))).agreed = true
        ↔ (env.PINB m.nb, env.PINB (m.nb + 1), env.PINB (m.nb + 2)) = (0x1E, 0x91, 0x0F))
    ∧ ((Target.run false (Target.holding a0 a1 a2)
          (new_events m
            (read_signature env (repair_signature (k + 4) m).machine))).agreed = true →
        (read_signature env (repair_signature (k + 4) m).machine).state.sig
            = [0x1E, 0x91, 0x0F]
          ∧ (read_signature env (repair_signature (k + 4) m).machine).state.sig_valid = 1) := by
  have hiff : (Target.run false (Target.holding a0 a1 a2)
      (new_events m (read_signature env (repair_signature (k + 4) m).machine))).agreed = true
      ↔ (env.PINB m.nb, env.PINB (m.nb + 1), env.PINB (m.nb + 2)) = (0x1E, 0x91, 0x0F) := by
    rw [repair_then_read_eq, new_events_append _ _ _ rfl, target_run_append,
      target_repair_ending, target_read_signature]
    simp [and_assoc]
  refine ⟨by rw [repair_signature_eq]; rfl, ?_, hiff, fun h => ?_⟩
  · rw [repair_signature_eq, machine_done, new_events_append _ _ _ rfl, target_repair_ending]
  · have hv := hiff.mp h
    have h0 : env.PINB m.nb = 0x1E := (Prod.mk.inj hv).1
    have h1 : env.PINB (m.nb + 1) = 0x91 := (Prod.mk.inj (Prod.mk.inj hv).2).1
    have h2 : env.PINB (m.nb + 2) = 0x0F := (Prod.mk.inj (Prod.mk.inj hv).2).2
    rw [repair_then_read_eq]
    simp [ProgrammerState.sig, h0, h1, h2, sig_check_true]

/-- C16 (amended) at a concrete input: a target that starts with 0xFF, 0xFF, 0xFF
and, after the repair, answers 0x1E, 0x91, 0x0F. -/
theorem repair_read_round_trip_witness :
    (Target.run false (Target.holding 0xFF 0xFF 0xFF)
        (new_events power_on
          (read_signature env_valid (repair_signature 4 power_on).machine))).agreed = true
    ∧ (read_signature env_valid (repair_signature 4 power_on).machine).state.sig
        = [0x1E, 0x91, 0x0F]
    ∧ (read_signature env_valid (repair_signature 4 power_on).machine).state.sig_valid = 1 :=
  have h := repair_read_round_trip env_valid 0 power_on 0xFF 0xFF 0xFF
  have ha := h.2.2.1.mpr rfl
  ⟨ha, (h.2.2.2 ha).1, (h.2.2.2 ha).2⟩

end HVProgrammer
